import Mathlib

/-!
Verification development for the type-model extraction engine in
`src/input/visit.ts`.

The type-checking oracle (the TypeScript `TypeChecker` and its `Type`,
`Symbol`, `Declaration`, `Signature` and `TypeNode` values) is modelled as a
family of finite trees in which every oracle query the visitor performs is
recorded as a field: `checker.getTypeAtLocation`, `getProperties`,
`getStringIndexType`, documentation comments, and the answers of the helper
predicates from the (out-of-repository) `helpers` module appear as data on
the corresponding node.  JavaScript object identity (`===`) on oracle types
is modelled by equality of their `id` field, which is how the oracle
allocates identities.  A JavaScript value that may be `undefined` is an
`Option`; a JavaScript runtime crash (property access on `undefined`) and
exhaustion of the recursion fuel are both modelled as the `none` outcome of
the interpreter.
-/

set_option maxRecDepth 8000

/-- Literal value carried by a string/number/boolean literal type. -/
inductive OLit where
  | str (s : String)
  | num (n : Int)
  | big (s : String)
deriving DecidableEq, Repr

/-- Declared index-signature info; `keyName` is the declared index-parameter
name recovered by the helper `getKeyName`. -/
structure OIndexInfo where
  keyName : String
deriving DecidableEq, Repr

/-- Classification of the source file a declaration lives in.  Modelled from
the spec: the helpers `isBaseLib` and `getLib` (not part of `src/`) classify
a file as standard library, a recognized importable library module, or local
code. -/
inductive FileKind where
  | baseLib
  | lib (name : String)
  | localFile
deriving DecidableEq, Repr

/-- Shape of `type.root` on a conditional type. -/
structure OCondSh (T : Type) where
  extendsType : T
  checkType : T
  trueType : T
  falseType : T
deriving Repr

/-- One entry of a heritage clause: the oracle type at the entry
(`checker.getTypeAtLocation(t)`), whether the syntactic expression is a bare
identifier, and that identifier's text. -/
structure OHeritageEntrySh (T : Type) where
  locType : T
  exprIsIdentifier : Bool
  exprText : String
deriving Repr

/-- A heritage clause: its keyword token (`extends` / `implements`) and its
entries. -/
structure OHeritageSh (T : Type) where
  token : Nat
  types : List (OHeritageEntrySh T)
deriving Repr

/-- Shape of the mapped-type parent node reached from the mapped type's
type-parameter declaration: its own `typeParameter` (compressed to the
oracle type standing for it) and its question token. -/
structure OMappedParentSh (T : Type) where
  typeParameter : T
  questionToken : Bool
deriving Repr

/-- A syntactic `TypeNode` as far as the visitor inspects it.  Each
constructor carries the oracle types the checker resolves for it
(`getTypeAtLocation` / `getTypeFromTypeNode`, compressed to one `resolved`
answer per node). -/
inductive ONodeSh (T : Type) where
  | identifierN (text : String) (resolved : T)
  | inferN (declaredParamType : T) (resolved : T)
  | keyofN (inner : T) (resolved : T)
  | unionN (members : List T) (resolved : T)
  | otherN (resolved : T)
deriving Repr

/-- A call/construct signature: `typeParameters`, `getParameters()` and
`getReturnType()`. -/
structure OSigSh (T S : Type) where
  typeParameters : Option (List T)
  parameters : List S
  returnType : T
deriving Repr

/-- A declaration, with every checker/helper answer the visitor requests at
it recorded as a field.  `default` and `locType` are the already-resolved
`checker.getTypeAtLocation` answers for `decl.default` and `decl` itself;
`symbolLocType` is `checker.getTypeOfSymbolAtLocation(prop, decl)` for the
property symbol owning the declaration; `hiddenParentType` is the node
reached by the `parent?.type?.parent?.parent?.parent` navigation of
`includeHiddenAnonymous`; `fileKind` is the `isBaseLib`/`getLib`
classification of the declaration's source file. -/
structure ODeclSh (T S : Type) where
  default : Option T
  constraint : Option (ONodeSh T)
  typeParameters : Option (List T)
  questionToken : Bool
  dotDotDotToken : Bool
  typeNode : Option (ONodeSh T)
  isMethodSignature : Bool
  parameters : List S
  isInterfaceOrClass : Bool
  heritageClauses : List (OHeritageSh T)
  symbol : Option S
  locType : Option T
  symbolLocType : Option T
  fileKind : FileKind
  hiddenParentType : Option T
  mappedParent : Option (OMappedParentSh T)
deriving Repr

/-- An oracle type.  Flag sets (`flags`, `objectFlags`) use the oracle's
numeric representation; `isTuple` and `hiddenAnonymous` record the answers
of the helpers `isTupleType` and `isHiddenAnonymousType` (modelled from the
spec, the helpers module is outside `src/`); `exportsOfModule` records
`checker.getExportsOfModule(type.symbol)`; `constructors` records the
resolved signatures obtained through `getConstructors` and
`getSignatureFromDeclaration`. -/
structure OTypeSh (T S : Type) where
  id : Nat
  flags : Nat
  objectFlags : Nat
  symbol : Option S
  aliasSymbol : Option S
  typeArguments : Option (List T)
  aliasTypeArguments : Option (List T)
  target : Option T
  types : List T
  value : Option OLit
  intrinsicName : Option String
  stringsOnly : Option Bool
  innerType : Option T
  root : Option (OCondSh T)
  typeVariable : Option T
  properties : List S
  stringIndexType : Option T
  numberIndexType : Option T
  declaredStringIndexInfo : Option OIndexInfo
  declaredNumberIndexInfo : Option OIndexInfo
  callSignatures : List (OSigSh T S)
  constructors : Option (List (OSigSh T S))
  typeParameters : Option (List T)
  typeParameter : Option T
  getConstraint : Option T
  nodeKind : Option Nat
  isTuple : Bool
  hiddenAnonymous : Bool
  objectType : Option T
  indexType : Option T
  exportsOfModule : List S
  typeNode : Option (ONodeSh T)
deriving Repr

/-- A symbol: name, oracle identity ids (`id`, `target?.id`), flags, the
modifiers string computed by the helper `getModifiers`, the joined
documentation comment, the global-scope answers of `isGlobal` and
`getGlobalName`, and its declarations. -/
structure OSymSh (T S : Type) where
  name : String
  id : Option Nat
  targetId : Option Nat
  flags : Nat
  modifiers : String
  comment : String
  isGlobal : Bool
  globalName : String
  declarations : List (ODeclSh T S)
  valueDeclaration : Option (ODeclSh T S)
deriving Repr

mutual
/-- The knot: an oracle type is a type shape over oracle types and symbols. -/
inductive OType where
  | mk : OTypeSh OType OSym → OType

/-- The knot: an oracle symbol is a symbol shape over oracle types and symbols. -/
inductive OSym where
  | mk : OSymSh OType OSym → OSym
end

abbrev ODecl := ODeclSh OType OSym
abbrev ONode := ONodeSh OType
abbrev OSignature := OSigSh OType OSym
abbrev OHeritage := OHeritageSh OType
abbrev OHeritageEntry := OHeritageEntrySh OType

def OType.sh : OType → OTypeSh OType OSym
  | .mk s => s

def OSym.sh : OSym → OSymSh OType OSym
  | .mk s => s

/-- A JavaScript literal value stored in a `literal` node. -/
inductive JsLit where
  | str (s : String)
  | num (n : Int)
  | bool (b : Bool)
deriving DecidableEq, Repr

mutual
/-- The output type-model node, a tagged union discriminated by its kind.
Constructor names follow the JS `kind` strings, except where Lean reserves
the word (`class` becomes `cls`, `constructor` becomes `ctor`, the `keyof`
prefix node becomes `prefixT`).  A `ref` node optionally carries the live
oracle type (`external`). -/
inductive TypeModel where
  | any
  | unknown
  | literal (value : JsLit)
  | enumLiteral (isConst : Bool) (comment : Option String) (values : List TypeMemberModel)
  | enum (comment : Option String) (values : List TypeMemberModel)
  | bigintLiteral (value : OLit)
  | string
  | boolean
  | number
  | bigint
  | esSymbol
  | uniqueEsSymbol
  | void
  | undefined
  | null
  | never
  | conditional (extendsT : TypeModel) (check : TypeModel) (primary : TypeModel) (alternate : TypeModel)
  | substitution (v : TypeModel)
  | nonPrimitive (name : Option String)
  | ref (types : List TypeModel) (refName : String) (external : Option OType)
  | tuple (types : List TypeModel)
  | union (types : List TypeModel)
  | intersection (types : List TypeModel)
  | indexedAccess (index : Option TypeModel) (object : Option TypeModel)
  | prefixT (prefixName : String) (value : TypeModel)
  | infer (parameter : TypeModel)
  | interface (ext : List TypeModel) (comment : Option String) (props : List TypeModel)
      (types : List TypeModel) (mapped : Option TypeModelMapped)
  | cls (ext : List TypeModel) (comment : Option String) (props : List TypeModel)
      (types : List TypeModel) (mapped : Option TypeModelMapped) (impls : List TypeModel)
  | prop (name : String) (modifiers : String) (id : Option Nat) (optional : Bool)
      (comment : Option String) (valueType : TypeModel)
  | index (parameters : List TypeModelFunctionParameter) (optional : Bool) (valueType : TypeModel)
  | function (types : List TypeModel) (parameters : List TypeModelFunctionParameter)
      (returnType : TypeModel) (comment : Option String)
  | ctor (types : List TypeModel) (parameters : List TypeModelFunctionParameter)
      (returnType : TypeModel)
  | typeParameter (parameter : TypeModel) (constraint : Option TypeModel) (default : Option TypeModel)
  | alias (comment : Option String) (types : List TypeModel) (child : TypeModel)
  | unidentified

/-- The `mapped` descriptor attached to a mapped-type interface node. -/
inductive TypeModelMapped where
  | mk (name : String) (constraint : Option TypeModel) (optional : Bool) (value : TypeModel)

/-- An enum member node. -/
inductive TypeMemberModel where
  | mk (name : String) (value : TypeModel) (comment : Option String)

/-- A function/index parameter node. -/
inductive TypeModelFunctionParameter where
  | mk (param : String) (modifiers : String) (spread : Bool) (optional : Bool) (value : TypeModel)
end

/-- The JS `kind` discriminator string of a node. -/
def TypeModel.kindName : TypeModel → String
  | .any => "any"
  | .unknown => "unknown"
  | .literal _ => "literal"
  | .enumLiteral _ _ _ => "enumLiteral"
  | .enum _ _ => "enum"
  | .bigintLiteral _ => "bigintLiteral"
  | .string => "string"
  | .boolean => "boolean"
  | .number => "number"
  | .bigint => "bigint"
  | .esSymbol => "esSymbol"
  | .uniqueEsSymbol => "uniqueEsSymbol"
  | .void => "void"
  | .undefined => "undefined"
  | .null => "null"
  | .never => "never"
  | .conditional _ _ _ _ => "conditional"
  | .substitution _ => "substitution"
  | .nonPrimitive _ => "nonPrimitive"
  | .ref _ _ _ => "ref"
  | .tuple _ => "tuple"
  | .union _ => "union"
  | .intersection _ => "intersection"
  | .indexedAccess _ _ => "indexedAccess"
  | .prefixT _ _ => "prefix"
  | .infer _ => "infer"
  | .interface _ _ _ _ _ => "interface"
  | .cls _ _ _ _ _ _ => "class"
  | .prop _ _ _ _ _ _ => "prop"
  | .index _ _ _ => "index"
  | .function _ _ _ _ => "function"
  | .ctor _ _ _ => "constructor"
  | .typeParameter _ _ _ => "typeParameter"
  | .alias _ _ _ => "alias"
  | .unidentified => "unidentified"

/-- The JS `types` property of a node, for the nodes that carry one
(`undefined` otherwise). -/
def TypeModel.typesF : TypeModel → Option (List TypeModel)
  | .ref ts _ _ => some ts
  | .tuple ts => some ts
  | .union ts => some ts
  | .intersection ts => some ts
  | .interface _ _ _ ts _ => some ts
  | .cls _ _ _ ts _ _ => some ts
  | .function ts _ _ _ => some ts
  | .ctor ts _ _ => some ts
  | .alias _ ts _ => some ts
  | _ => none

/-- The JS `external` property of a node (`undefined` unless a `ref`
carries one). -/
def TypeModel.externalF : TypeModel → Option OType
  | .ref _ _ ext => ext
  | _ => none

/-- The JS `refName` property of a node (`undefined` unless a `ref`). -/
def TypeModel.refNameF : TypeModel → Option String
  | .ref _ n _ => some n
  | _ => none

/-- The JS `id` property of a node (`undefined` unless a `prop`). -/
def TypeModel.idF : TypeModel → Option Nat
  | .prop _ _ i _ _ _ => i
  | _ => none

/-- The JS `props` property of a node (interface/class only; `[]` used as
the defensive default elsewhere). -/
def TypeModel.propsF : TypeModel → List TypeModel
  | .interface _ _ ps _ _ => ps
  | .cls _ _ ps _ _ _ => ps
  | _ => []

/-- The JS `extends` property of a node (interface/class only). -/
def TypeModel.extendsF : TypeModel → List TypeModel
  | .interface es _ _ _ _ => es
  | .cls es _ _ _ _ _ => es
  | _ => []

/-! ## Oracle flag constants (the oracle's numeric representation) -/

namespace TypeFlags
def Any : Nat := 1
def Unknown : Nat := 2
def String : Nat := 4
def Number : Nat := 8
def Boolean : Nat := 16
def Enum : Nat := 32
def BigInt : Nat := 64
def StringLiteral : Nat := 128
def NumberLiteral : Nat := 256
def BooleanLiteral : Nat := 512
def EnumLiteral : Nat := 1024
def BigIntLiteral : Nat := 2048
def ESSymbol : Nat := 4096
def UniqueESSymbol : Nat := 8192
def Void : Nat := 16384
def Undefined : Nat := 32768
def Null : Nat := 65536
def Never : Nat := 131072
def TypeParameter : Nat := 262144
def ObjectF : Nat := 524288
def Union : Nat := 1048576
def Intersection : Nat := 2097152
def Index : Nat := 4194304
def IndexedAccess : Nat := 8388608
def Conditional : Nat := 16777216
def Substitution : Nat := 33554432
def NonPrimitive : Nat := 67108864
end TypeFlags

namespace ObjectFlags
def Class : Nat := 1
def Reference : Nat := 4
def Tuple : Nat := 8
def Anonymous : Nat := 16
def Mapped : Nat := 32
end ObjectFlags

namespace SymbolFlags
def FunctionF : Nat := 16
def ConstEnum : Nat := 128
def Prototype : Nat := 4194304
def TypeAlias : Nat := 524288
def Optional : Nat := 16777216
end SymbolFlags

namespace SyntaxKind
def ExtendsKeyword : Nat := 96
def ImplementsKeyword : Nat := 119
def TypeAliasDeclaration : Nat := 262
end SyntaxKind

/-! ## Helper predicates

The `helpers` module is outside `src/`; each predicate below is modelled
from the spec / the oracle's documented flag representation, or simply
reads the recorded oracle answer off the node. -/

/-- Helper `isObjectType`: the type-flag test for object types. -/
def isObjectType (t : OType) : Bool := (t.sh.flags &&& TypeFlags.ObjectF) != 0

/-- Helper `isReferenceType`: the object-flag test for type references. -/
def isReferenceType (t : OType) : Bool := (t.sh.objectFlags &&& ObjectFlags.Reference) != 0

/-- Helper `isAnonymousObject`: an object type with the anonymous object flag. -/
def isAnonymousObject (t : OType) : Bool :=
  isObjectType t && ((t.sh.objectFlags &&& ObjectFlags.Anonymous) != 0)

/-- Helper `isBigIntLiteral`. -/
def isBigIntLiteral (t : OType) : Bool := (t.sh.flags &&& TypeFlags.BigIntLiteral) != 0

/-- Helper `isConditionalType`. -/
def isConditionalType (t : OType) : Bool := (t.sh.flags &&& TypeFlags.Conditional) != 0

/-- Helper `isSubstitutionType`. -/
def isSubstitutionType (t : OType) : Bool := (t.sh.flags &&& TypeFlags.Substitution) != 0

/-- Helper `isIndexType`: an indexed-access type. -/
def isIndexType (t : OType) : Bool := (t.sh.flags &&& TypeFlags.IndexedAccess) != 0

/-- Helper `isTupleType` (recorded oracle answer). -/
def isTupleType (t : OType) : Bool := t.sh.isTuple

/-- Helper `isHiddenAnonymousType` (recorded oracle answer); tolerates an
absent node like the JS helper. -/
def isHiddenAnonymousType : Option OType → Bool
  | some t => t.sh.hiddenAnonymous
  | none => false

/-- Helper `isAnonymous`: modelled from the spec, a compiler-synthesized
anonymous symbol name. -/
def isAnonymous (name : Option String) : Bool := name == some "__type"

/-- Helper `isGlobal` on a possibly-absent symbol. -/
def isGlobal : Option OSym → Bool
  | some s => s.sh.isGlobal
  | none => false

/-- Helper `getGlobalName` (recorded oracle answer). -/
def getGlobalName : Option OSym → String
  | some s => s.sh.globalName
  | none => ""

/-- Helper `getKeyName`: the declared index-parameter name. Modelled from
the spec: falls back to a synthesized name when no declared info exists. -/
def getKeyName : Option OIndexInfo → String
  | some i => i.keyName
  | none => "index"

/-- Helper `getModifiers` (recorded oracle answer). -/
def getModifiers (s : OSym) : String := s.sh.modifiers

/-- `getComment`: the joined documentation comment of a symbol, `undefined`
when the symbol is absent. -/
def getComment (s : Option OSym) : Option String := s.map (fun x => x.sh.comment)

/-- JS truthiness of a possibly-absent string (empty string is falsy). -/
def jsTruthyStr : Option String → Bool
  | some s => s != ""
  | none => false

/-- JS `a || b` over possibly-absent numbers (`0` and `undefined` are falsy). -/
def truthyOr : Option Nat → Option Nat → Option Nat
  | some n, b => if n = 0 then b else some n
  | none, b => b

/-- JS `a || b` over possibly-absent strings (`''` and `undefined` are falsy). -/
def truthyOrStr : Option String → Option String → Option String
  | some s, b => if s = "" then b else some s
  | none, b => b

/-- Helper `createBinding`: modelled from the spec, produces the canonical
import-binding name for an exported name of a library module. -/
def createBinding (lib name : String) : String := lib ++ ":" ++ name

/-! ## The reference registry

`context.refs` is a JS object: keys are unique, assignment overwrites in
place, insertion order is preserved.  It is modelled as an association list
whose values are possibly-`undefined` nodes (`includeNamed` can store
`undefined` under a name). -/

abbrev Refs := List (String × Option TypeModel)

/-- The visitor context; the checker and import tables are baked into the
oracle data, so only the registry remains. -/
structure DeclVisitorContext where
  refs : Refs

/-- JS `name in refs`. -/
def hasRef (refs : Refs) (name : String) : Bool := refs.any (fun p => p.1 == name)

/-- JS `refs[name]` (outer `none` when the key is absent, inner value is the
stored, possibly-`undefined`, node). -/
def lookupRef (refs : Refs) (name : String) : Option (Option TypeModel) :=
  (refs.find? (fun p => p.1 == name)).map (fun p => p.2)

/-- JS `refs[name] = v`: overwrite in place, or append a new key. -/
def setRef (refs : Refs) (name : String) (v : Option TypeModel) : Refs :=
  if hasRef refs name then
    refs.map (fun p => if p.1 == name then (name, v) else p)
  else refs ++ [(name, v)]

/-- Number of entries stored under a name (always `0` or `1` for states
reachable through `setRef`). -/
def countKey (refs : Refs) (name : String) : Nat :=
  (refs.filter (fun p => p.1 == name)).length

/-! ## Pure pieces of the visitor -/

def allowedBaseTypes : List String := ["object", "class"]

/-- `isClassOrObject` from the source: a possibly-`undefined` registry node
whose kind is in `allowedBaseTypes`. -/
def isClassOrObject : Option TypeModel → Bool
  | some t => allowedBaseTypes.contains t.kindName
  | none => false

/-- The index-signature emission step of `includeStandardObject`, extracted
as a helper over the `getIndexType` instance: emit one `index` member when
the index type exists and is not deduplicated, nothing otherwise. -/
def indexStep
    (gIT : DeclVisitorContext → OType → TypeModel → Option OIndexInfo →
      Option (TypeModel × DeclVisitorContext))
    (ctx2 : DeclVisitorContext) (idxType : Option OType) (inh : Bool)
    (keyType : TypeModel) (info : Option OIndexInfo) :
    Option (List TypeModel × DeclVisitorContext) :=
  match idxType with
  | some nit =>
    if !inh then
      match gIT ctx2 nit keyType info with
      | none => none
      | some (m, c) => some ([m], c)
    else some ([], ctx2)
  | none => some ([], ctx2)

/-- The index-signature dedup test of `includeStandardObject`: some inherited
heritage `ref` carries an external oracle type whose number index type is the
identical oracle object (identity modelled by id) as the type's own number
index type. -/
def numberIndexInherited (inherited : List TypeModel) (type : OType) : Bool :=
  inherited.any (fun m =>
    match m.externalF with
    | some ext =>
      match ext.sh.numberIndexType, type.sh.numberIndexType with
      | some x, some nit => x.sh.id == nit.sh.id
      | _, _ => false
    | none => false)

/-- String-index variant of `numberIndexInherited`. -/
def stringIndexInherited (inherited : List TypeModel) (type : OType) : Bool :=
  inherited.any (fun m =>
    match m.externalF with
    | some ext =>
      match ext.sh.stringIndexType, type.sh.stringIndexType with
      | some x, some sit => x.sh.id == sit.sh.id
      | _, _ => false
    | none => false)

/-- `getDefaultTypeId`: the identity id of the resolved default of a declared
type parameter (resolution by `checker.getTypeAtLocation` is baked into the
`default` field). -/
def getDefaultTypeId (t : OType) : Option Nat :=
  match t.sh.symbol with
  | none => none
  | some s =>
    match s.sh.declarations.head? with
    | none => none
    | some d =>
      match d.default with
      | none => none
      | some dt => some dt.sh.id

def maxSafeInteger : Nat := 9007199254740991

/-- The trailing-default dropping loop of `normalizeTypeParameters`
(`for (let i = typeParameterIds.length; i--; )` with `types.pop()`). -/
def normalizeLoop : List TypeModel → List (Option Nat) → List Nat → Nat → List TypeModel
  | types, _, _, 0 => types
  | types, paramIds, argIds, i + 1 =>
    match (paramIds.get? i).join with
    | none => types
    | some idv =>
      if idv = 0 then types
      else if argIds.get? i ≠ some idv then types
      else normalizeLoop types.dropLast paramIds argIds i

/-- `normalizeTypeParameters` from the source: truncate the supplied list to
the registry target's `types` length, then drop trailing arguments equal (by
oracle identity id) to the declared defaults. -/
def normalizeTypeParameters (context : DeclVisitorContext) (type : OType) (decl : Option ODecl)
    (types : List TypeModel) (refName : String) : List TypeModel :=
  let maxTypes := (((lookupRef context.refs refName).join.bind TypeModel.typesF).map
    List.length).getD maxSafeInteger
  let typeParameterIds := ((decl.bind (fun d => d.typeParameters)).getD []).map getDefaultTypeId
  let typeArgumentIds :=
    match type.sh.aliasTypeArguments with
    | some l => l.map (fun t => t.sh.id)
    | none => ((type.sh.typeArguments).getD []).map (fun t => t.sh.id)
  normalizeLoop (types.take maxTypes) typeParameterIds typeArgumentIds typeParameterIds.length

/-- An empty oracle type shape, used to view a declaration as the duck-typed
argument `makeAliasRef` passes to `includeExternal`. -/
def emptyOTypeSh : OTypeSh OType OSym where
  id := 0
  flags := 0
  objectFlags := 0
  symbol := none
  aliasSymbol := none
  typeArguments := none
  aliasTypeArguments := none
  target := none
  types := []
  value := none
  intrinsicName := none
  stringsOnly := none
  innerType := none
  root := none
  typeVariable := none
  properties := []
  stringIndexType := none
  numberIndexType := none
  declaredStringIndexInfo := none
  declaredNumberIndexInfo := none
  callSignatures := []
  constructors := none
  typeParameters := none
  typeParameter := none
  getConstraint := none
  nodeKind := none
  isTuple := false
  hiddenAnonymous := false
  objectType := none
  indexType := none
  exportsOfModule := []
  typeNode := none

/-- View a declaration as the value passed to `includeExternal(context, decl)`
in `makeAliasRef`: only its `symbol` is ever accessed there. -/
def declAsType (d : ODecl) : OType :=
  .mk { emptyOTypeSh with symbol := d.symbol }

/-- The retargeting step of `makeRef` (`type = type.target` for object
reference types; an absent target is modelled as the type itself). -/
def retargetType (t : OType) : OType :=
  if isObjectType t && isReferenceType t then (t.sh.target).getD t else t

/-- State-threaded map in the `Option` (crash/fuel) monad, in list order:
the JS `array.map(t => f(context, t))` over context-mutating `f`. -/
def mapWithCtx (f : DeclVisitorContext → α → Option (β × DeclVisitorContext)) :
    DeclVisitorContext → List α → Option (List β × DeclVisitorContext)
  | ctx, [] => some ([], ctx)
  | ctx, x :: xs =>
    match f ctx x with
    | none => none
    | some (b, ctx2) =>
      match mapWithCtx f ctx2 xs with
      | none => none
      | some (bs, ctx3) => some (b :: bs, ctx3)

/-- The oracle type a `TypeNode` resolves to
(`checker.getTypeFromTypeNode` / `checker.getTypeAtLocation`, compressed to
one recorded answer per node). -/
def nodeResolved : ONode → OType
  | .identifierN _ r => r
  | .inferN _ r => r
  | .keyofN _ r => r
  | .unionN _ r => r
  | .otherN r => r

/-- The `.type` property of a constraint node (`c?.type`): present exactly
on `keyof`-style type-operator nodes. -/
def nodeTypeField : ONode → Option OType
  | .keyofN inner _ => some inner
  | _ => none

/-- One level of the mutually recursive visitor: every function of
`visit.ts` as a field.  The tower `visitors` below instantiates the
recursion with fuel; a call at fuel `n + 1` recurses at fuel `n`. -/
structure Visitor where
  getTypeArguments : DeclVisitorContext → OType → Option (List TypeModel × DeclVisitorContext)
  getTypeParameters : DeclVisitorContext → Option (List OType) →
    Option (List TypeModel × DeclVisitorContext)
  getParameterType : DeclVisitorContext → Option ONode → Option (TypeModel × DeclVisitorContext)
  getFunctionParameters : DeclVisitorContext → List OSym →
    Option (List TypeModelFunctionParameter × DeclVisitorContext)
  getFunctionType : DeclVisitorContext → OSignature → Option (TypeModel × DeclVisitorContext)
  getConstructorTypes : DeclVisitorContext → OType →
    Option (List TypeModel × DeclVisitorContext)
  getKeyOfType : DeclVisitorContext → OType → Option (TypeModel × DeclVisitorContext)
  includeNode : DeclVisitorContext → Option ONode →
    Option (Option TypeModel × DeclVisitorContext)
  getPropValue : DeclVisitorContext → OSym → Option (TypeModel × DeclVisitorContext)
  getPropType : DeclVisitorContext → OSym → Option (TypeModel × DeclVisitorContext)
  getIndexType : DeclVisitorContext → OType → TypeModel → Option OIndexInfo →
    Option (TypeModel × DeclVisitorContext)
  getUnion : DeclVisitorContext → List OType → Option (TypeModel × DeclVisitorContext)
  includeHiddenAnonymous : DeclVisitorContext → OType →
    Option (Option TypeModel × DeclVisitorContext)
  includeExternal : DeclVisitorContext → OType → Option (Option TypeModel × DeclVisitorContext)
  includeRef : DeclVisitorContext → OType → String → Option OType →
    Option (TypeModel × DeclVisitorContext)
  includeMember : DeclVisitorContext → OType → Option (TypeMemberModel × DeclVisitorContext)
  includeBasic : DeclVisitorContext → OType → Option (Option TypeModel × DeclVisitorContext)
  includeInheritedTypes : DeclVisitorContext → OType →
    Option ((List TypeModel × List TypeModel) × DeclVisitorContext)
  includeConstraint : DeclVisitorContext → OType → Option (Option TypeModel × DeclVisitorContext)
  includeDefaultTypeArgument : DeclVisitorContext → OType →
    Option (Option TypeModel × DeclVisitorContext)
  includeTypeParameter : DeclVisitorContext → OType → Option (TypeModel × DeclVisitorContext)
  getAllPropIds : Refs → List TypeModel → Option (List (Option Nat))
  includeStandardObject : DeclVisitorContext → OType → Option (TypeModel × DeclVisitorContext)
  includeClassObject : DeclVisitorContext → OType → Option (TypeModel × DeclVisitorContext)
  includeMappedObject : DeclVisitorContext → OType → Option (TypeModel × DeclVisitorContext)
  includeObject : DeclVisitorContext → OType → Option (Option TypeModel × DeclVisitorContext)
  includeIndex : DeclVisitorContext → Option OType →
    Option (Option TypeModel × DeclVisitorContext)
  includeCombinator : DeclVisitorContext → OType → Option (Option TypeModel × DeclVisitorContext)
  includeReference : DeclVisitorContext → OType → Option (Option TypeModel × DeclVisitorContext)
  includeNamed : DeclVisitorContext → OType → Option (Option TypeModel × DeclVisitorContext)
  includeAnonymousNode : DeclVisitorContext → Option ONode →
    Option (TypeModel × DeclVisitorContext)
  includeAnonymous : DeclVisitorContext → OType → Option (TypeModel × DeclVisitorContext)
  makeAliasRef : DeclVisitorContext → OType → String → Option (TypeModel × DeclVisitorContext)
  getTypeModel : DeclVisitorContext → OType → Option String →
    Option (TypeModel × DeclVisitorContext)
  includeType : DeclVisitorContext → OType → Option (TypeModel × DeclVisitorContext)

/-- `makeRef` from the source.  The body-builder callback `cb` is the
parameter it has in the source; `incRef` is the `includeRef` instance to use,
passed explicitly because `includeRef` lives in the fuel tower defined
below.  Registers a placeholder `ref` node under the name before invoking
`cb`, overwrites it with `cb`'s result, and resolves through `incRef`. -/
def makeRef
    (incRef : DeclVisitorContext → OType → String → Option (TypeModel × DeclVisitorContext))
    (context : DeclVisitorContext) (type : OType) (name : String)
    (cb : DeclVisitorContext → OType → Option (Option TypeModel × DeclVisitorContext)) :
    Option (TypeModel × DeclVisitorContext) :=
  let refType := type
  if hasRef context.refs name then incRef context refType name
  else
    let context1 : DeclVisitorContext := ⟨setRef context.refs name (some (.ref [] name none))⟩
    match cb context1 (retargetType type) with
    | none => none
    | some (node, context2) => incRef ⟨setRef context2.refs name node⟩ refType name

/-- Body of `getTypeArguments` at one visitor level (recursive calls go through `v`). -/
def getTypeArgumentsF (v : Visitor) : DeclVisitorContext → OType → Option (List TypeModel × DeclVisitorContext) :=
  fun context type =>
    match type.sh.typeArguments with
    | none => some ([], context)
    | some l => mapWithCtx v.includeType context l

/-- Body of `getTypeParameters` at one visitor level (recursive calls go through `v`). -/
def getTypeParametersF (v : Visitor) : DeclVisitorContext → Option (List OType) → Option (List TypeModel × DeclVisitorContext) :=
  fun context tps =>
    match tps with
    | none => some ([], context)
    | some l => mapWithCtx v.includeTypeParameter context l

/-- Body of `getParameterType` at one visitor level (recursive calls go through `v`). -/
def getParameterTypeF (v : Visitor) : DeclVisitorContext → Option ONode → Option (TypeModel × DeclVisitorContext) :=
  fun context node =>
    match node with
    | none => none
    | some (ONodeSh.identifierN text loc) => v.getTypeModel context loc (some text)
    | some (ONodeSh.inferN declared _) =>
      match v.includeType context declared with
      | none => none
      | some (p, ctx2) => some (.infer p, ctx2)
    | some n => v.includeAnonymousNode context (some n)

/-- Body of `getFunctionParameters` at one visitor level (recursive calls go through `v`). -/
def getFunctionParametersF (v : Visitor) : DeclVisitorContext → List OSym → Option (List TypeModelFunctionParameter × DeclVisitorContext) :=
  fun context params =>
    mapWithCtx (fun ctx param =>
      match param.sh.valueDeclaration with
      | none => none
      | some vd =>
        match v.getParameterType ctx vd.typeNode with
        | none => none
        | some (val, ctx2) =>
          some (TypeModelFunctionParameter.mk param.sh.name "" vd.dotDotDotToken
            vd.questionToken val, ctx2)) context params

/-- Body of `getFunctionType` at one visitor level (recursive calls go through `v`). -/
def getFunctionTypeF (v : Visitor) : DeclVisitorContext → OSignature → Option (TypeModel × DeclVisitorContext) :=
  fun context sign =>
    match v.getTypeParameters context sign.typeParameters with
    | none => none
    | some (types, ctx2) =>
      match v.getFunctionParameters ctx2 sign.parameters with
      | none => none
      | some (parameters, ctx3) =>
        match v.includeType ctx3 sign.returnType with
        | none => none
        | some (ret, ctx4) => some (.function types parameters ret none, ctx4)

/-- Body of `getConstructorTypes` at one visitor level (recursive calls go through `v`). -/
def getConstructorTypesF (v : Visitor) : DeclVisitorContext → OType → Option (List TypeModel × DeclVisitorContext) :=
  fun context type =>
    match type.sh.constructors with
    | none => some ([], context)
    | some ctors =>
      mapWithCtx (fun ctx sig =>
        match v.getFunctionType ctx sig with
        | none => none
        | some (ft, ctx2) =>
          match ft with
          | .function ts ps ret _ => some (TypeModel.ctor ts ps ret, ctx2)
          | _ => none) context ctors

/-- Body of `getKeyOfType` at one visitor level (recursive calls go through `v`). -/
def getKeyOfTypeF (v : Visitor) : DeclVisitorContext → OType → Option (TypeModel × DeclVisitorContext) :=
  fun context type =>
    match v.includeType context type with
    | none => none
    | some (val, ctx2) => some (.prefixT "keyof" val, ctx2)

/-- Body of `includeNode` at one visitor level (recursive calls go through `v`). -/
def includeNodeF (v : Visitor) : DeclVisitorContext → Option ONode → Option (Option TypeModel × DeclVisitorContext) :=
  fun context node =>
    match node with
    | some (ONodeSh.keyofN inner _) =>
      match v.getKeyOfType context inner with
      | none => none
      | some (km, ctx2) => some (some km, ctx2)
    | some (ONodeSh.unionN members _) =>
      match v.getUnion context members with
      | none => none
      | some (um, ctx2) => some (some um, ctx2)
    | _ => some (none, context)

/-- Body of `getPropValue` at one visitor level (recursive calls go through `v`). -/
def getPropValueF (v : Visitor) : DeclVisitorContext → OSym → Option (TypeModel × DeclVisitorContext) :=
  fun context prop =>
    match prop.sh.declarations.head? with
    | none => none
    | some decl =>
      match v.includeNode context decl.typeNode with
      | none => none
      | some (n, ctx1) =>
        let step : Option (TypeModel × DeclVisitorContext) :=
          match n with
          | some m => some (m, ctx1)
          | none =>
            match decl.symbolLocType with
            | none => none
            | some slt => v.includeType ctx1 slt
        match step with
        | none => none
        | some (type, ctx2) =>
          if decl.isMethodSignature then
            match v.getFunctionParameters ctx2 decl.parameters with
            | none => none
            | some (parameters, ctx3) =>
              match v.getTypeParameters ctx3 decl.typeParameters with
              | none => none
              | some (types, ctx4) => some (.function types parameters type none, ctx4)
          else some (type, ctx2)

/-- Body of `getPropType` at one visitor level (recursive calls go through `v`). -/
def getPropTypeF (v : Visitor) : DeclVisitorContext → OSym → Option (TypeModel × DeclVisitorContext) :=
  fun context prop =>
    match v.getPropValue context prop with
    | none => none
    | some (valueType, ctx2) =>
      some (.prop prop.sh.name (getModifiers prop) (truthyOr prop.sh.id prop.sh.targetId)
        ((prop.sh.flags &&& SymbolFlags.Optional) != 0) (getComment (some prop)) valueType,
        ctx2)

/-- Body of `getIndexType` at one visitor level (recursive calls go through `v`). -/
def getIndexTypeF (v : Visitor) : DeclVisitorContext → OType → TypeModel → Option OIndexInfo → Option (TypeModel × DeclVisitorContext) :=
  fun context type keyType info =>
    match v.includeType context type with
    | none => none
    | some (valueType, ctx2) =>
      some (.index [TypeModelFunctionParameter.mk (getKeyName info) "" false false keyType]
        false valueType, ctx2)

/-- Body of `getUnion` at one visitor level (recursive calls go through `v`). -/
def getUnionF (v : Visitor) : DeclVisitorContext → List OType → Option (TypeModel × DeclVisitorContext) :=
  fun context types =>
    match mapWithCtx v.includeType context types with
    | none => none
    | some (l, ctx2) => some (.union l, ctx2)

/-- Body of `includeHiddenAnonymous` at one visitor level (recursive calls go through `v`). -/
def includeHiddenAnonymousF (v : Visitor) : DeclVisitorContext → OType → Option (Option TypeModel × DeclVisitorContext) :=
  fun context type =>
    let name := type.sh.symbol.map (fun s => s.sh.name)
    if isAnonymous name then
      let hiddenType :=
        (type.sh.symbol.bind (fun s => s.sh.declarations.head?)).bind
          (fun d => d.hiddenParentType)
      if isHiddenAnonymousType hiddenType then
        match hiddenType with
        | none => some (none, context)
        | some ht =>
          let hiddenTypeName := ht.sh.symbol.map (fun s => s.sh.name)
          if jsTruthyStr hiddenTypeName then
            match v.includeType context ht with
            | none => none
            | some (m, ctx2) => some (some m, ctx2)
          else some (none, context)
      else some (none, context)
    else some (none, context)

/-- Body of `includeExternal` at one visitor level (recursive calls go through `v`). -/
def includeExternalF (v : Visitor) : DeclVisitorContext → OType → Option (Option TypeModel × DeclVisitorContext) :=
  fun context type =>
    if isGlobal type.sh.symbol then
      match v.includeRef context type (getGlobalName type.sh.symbol) none with
      | none => none
      | some (m, ctx2) => some (some m, ctx2)
    else
      let name := type.sh.symbol.map (fun s => s.sh.name)
      let fn := (type.sh.symbol.bind (fun s => s.sh.declarations.head?)).map
        (fun d => d.fileKind)
      if fn == some FileKind.baseLib then
        match name with
        | none => none
        | some n =>
          match v.includeRef context type n (some type) with
          | none => none
          | some (m, ctx2) => some (some m, ctx2)
      else
        match fn with
        | some (FileKind.lib libName) =>
          if isAnonymous name then v.includeHiddenAnonymous context type
          else if !(isAnonymousObject type) then
            match name with
            | none => none
            | some n =>
              match v.includeRef context type (createBinding libName n) (some type) with
              | none => none
              | some (m, ctx2) => some (some m, ctx2)
          else some (none, context)
        | _ => some (none, context)

/-- Body of `includeRef` at one visitor level (recursive calls go through `v`). -/
def includeRefF (v : Visitor) : DeclVisitorContext → OType → String → Option OType → Option (TypeModel × DeclVisitorContext) :=
  fun context type refName external =>
    let decl := type.sh.symbol.bind (fun s => s.sh.declarations.head?)
    match v.getTypeArguments context type with
    | none => none
    | some (types, ctx2) =>
      some (.ref (normalizeTypeParameters ctx2 type decl types refName) refName external, ctx2)

/-- Body of `includeMember` at one visitor level (recursive calls go through `v`). -/
def includeMemberF (v : Visitor) : DeclVisitorContext → OType → Option (TypeMemberModel × DeclVisitorContext) :=
  fun context type =>
    match type.sh.symbol with
    | none => none
    | some s =>
      match v.includeAnonymous context type with
      | none => none
      | some (val, ctx2) =>
        some (TypeMemberModel.mk s.sh.name val (getComment (some s)), ctx2)

/-- Body of `includeBasic` at one visitor level (recursive calls go through `v`). -/
def includeBasicF (v : Visitor) : DeclVisitorContext → OType → Option (Option TypeModel × DeclVisitorContext) :=
  fun context type =>
    let fl := type.sh.flags
    if (fl &&& TypeFlags.Any) != 0 then some (some .any, context)
    else if (fl &&& TypeFlags.Unknown) != 0 then some (some .unknown, context)
    else if (fl &&& TypeFlags.StringLiteral) != 0 then
      match type.sh.value with
      | some (OLit.str s) => some (some (.literal (.str s)), context)
      | _ => none
    else if (fl &&& TypeFlags.NumberLiteral) != 0 then
      match type.sh.value with
      | some (OLit.num n) => some (some (.literal (.num n)), context)
      | _ => none
    else if (fl &&& TypeFlags.BooleanLiteral) != 0 then
      some (some (.literal (.bool (type.sh.intrinsicName == some "true"))), context)
    else if (fl &&& TypeFlags.EnumLiteral) != 0 && (fl &&& TypeFlags.Union) != 0 then
      match type.sh.symbol with
      | none => none
      | some s =>
        match mapWithCtx v.includeMember context type.sh.types with
        | none => none
        | some (values, ctx2) =>
          some (some (.enumLiteral (s.sh.flags == SymbolFlags.ConstEnum)
            (getComment (some s)) values), ctx2)
    else if (fl &&& TypeFlags.Enum) != 0 && (fl &&& TypeFlags.Union) != 0 then
      match mapWithCtx v.includeMember context type.sh.types with
      | none => none
      | some (values, ctx2) =>
        some (some (.enum (getComment type.sh.symbol) values), ctx2)
    else if isBigIntLiteral type then
      match type.sh.value with
      | some (OLit.big s) => some (some (.bigintLiteral (.big s)), context)
      | _ => none
    else if (fl &&& TypeFlags.String) != 0 then some (some .string, context)
    else if (fl &&& TypeFlags.Boolean) != 0 then some (some .boolean, context)
    else if (fl &&& TypeFlags.Number) != 0 then some (some .number, context)
    else if (fl &&& TypeFlags.BigInt) != 0 then some (some .bigint, context)
    else if (fl &&& TypeFlags.ESSymbol) != 0 then some (some .esSymbol, context)
    else if (fl &&& TypeFlags.UniqueESSymbol) != 0 then some (some .uniqueEsSymbol, context)
    else if (fl &&& TypeFlags.Void) != 0 then some (some .void, context)
    else if (fl &&& TypeFlags.Undefined) != 0 then some (some .undefined, context)
    else if (fl &&& TypeFlags.Null) != 0 then some (some .null, context)
    else if (fl &&& TypeFlags.Never) != 0 then some (some .never, context)
    else if isConditionalType type then
      match type.sh.root with
      | none => none
      | some r =>
        match v.includeType context r.extendsType with
        | none => none
        | some (e, c1) =>
          match v.includeType c1 r.checkType with
          | none => none
          | some (ch, c2) =>
            match v.includeType c2 r.trueType with
            | none => none
            | some (pr, c3) =>
              match v.includeType c3 r.falseType with
              | none => none
              | some (al, c4) => some (some (.conditional e ch pr al), c4)
    else if isSubstitutionType type then
      match type.sh.typeVariable with
      | none => none
      | some tv =>
        match v.includeType context tv with
        | none => none
        | some (m, c2) => some (some (.substitution m), c2)
    else if (fl &&& TypeFlags.NonPrimitive) != 0 then
      some (some (.nonPrimitive type.sh.intrinsicName), context)
    else some (none, context)

/-- Body of `includeInheritedTypes` at one visitor level (recursive calls go through `v`). -/
def includeInheritedTypesF (v : Visitor) : DeclVisitorContext → OType → Option ((List TypeModel × List TypeModel) × DeclVisitorContext) :=
  fun context type =>
    match type.sh.symbol.bind (fun s => s.sh.declarations.head?) with
    | some d =>
      if d.isInterfaceOrClass then
        d.heritageClauses.foldl (fun acc clause =>
          match acc with
          | none => none
          | some ((exts, impls), ctx) =>
            match mapWithCtx (fun c (t : OHeritageEntry) =>
              match v.includeType c t.locType with
              | none => none
              | some (res, c2) =>
                if res.kindName != "ref" && t.exprIsIdentifier then
                  some (TypeModel.ref [] t.exprText (some t.locType), c2)
                else some (res, c2)) ctx clause.types with
            | none => none
            | some (items, ctx2) =>
              if clause.token == SyntaxKind.ExtendsKeyword then
                some ((exts ++ items, impls), ctx2)
              else if clause.token == SyntaxKind.ImplementsKeyword then
                some ((exts, impls ++ items), ctx2)
              else some ((exts, impls), ctx2)) (some (([], []), context))
      else some (([], []), context)
    | none => some (([], []), context)

/-- Body of `includeConstraint` at one visitor level (recursive calls go through `v`). -/
def includeConstraintF (v : Visitor) : DeclVisitorContext → OType → Option (Option TypeModel × DeclVisitorContext) :=
  fun context type =>
    match type.sh.symbol with
    | none => none
    | some s =>
      let decl := s.sh.declarations.head?
      let c := decl.bind (fun d => d.constraint)
      let constraint :=
        match c.bind nodeTypeField with
        | some x => some x
        | none => type.sh.getConstraint
      match c with
      | some (ONodeSh.keyofN inner _) =>
        match v.getKeyOfType context inner with
        | none => none
        | some (m, c2) => some (some m, c2)
      | some cn =>
        match v.includeType context (nodeResolved cn) with
        | none => none
        | some (m, c2) => some (some m, c2)
      | none =>
        match constraint with
        | some ct =>
          match v.includeType context ct with
          | none => none
          | some (m, c2) => some (some m, c2)
        | none => some (none, context)

/-- Body of `includeDefaultTypeArgument` at one visitor level (recursive calls go through `v`). -/
def includeDefaultTypeArgumentF (v : Visitor) : DeclVisitorContext → OType → Option (Option TypeModel × DeclVisitorContext) :=
  fun context type =>
    match type.sh.symbol with
    | none => none
    | some s =>
      match (s.sh.declarations.head?).bind (fun d => d.default) with
      | some dt =>
        match v.includeType context dt with
        | none => none
        | some (m, c2) => some (some m, c2)
      | none => some (none, context)

/-- Body of `includeTypeParameter` at one visitor level (recursive calls go through `v`). -/
def includeTypeParameterF (v : Visitor) : DeclVisitorContext → OType → Option (TypeModel × DeclVisitorContext) :=
  fun context type =>
    match type.sh.symbol with
    | some s =>
      match v.includeConstraint context type with
      | none => none
      | some (constraint, c1) =>
        match v.includeDefaultTypeArgument c1 type with
        | none => none
        | some (dflt, c2) =>
          some (.typeParameter (.ref [] s.sh.name none) constraint dflt, c2)
    | none => none

/-- Body of `getAllPropIds` at one visitor level (recursive calls go through `v`). -/
def getAllPropIdsF (v : Visitor) : Refs → List TypeModel → Option (List (Option Nat)) :=
  fun refs types =>
    types.foldl (fun acc t =>
      match acc with
      | none => none
      | some ids =>
        let baseType := (t.refNameF).bind (fun n => (lookupRef refs n).join)
        if isClassOrObject baseType then
          match baseType with
          | none => none
          | some bt =>
            let own := bt.propsF.foldl (fun l p =>
              match p.idF with
              | some i => if i != 0 then l ++ [some i] else l
              | none => l) []
            match v.getAllPropIds refs bt.extendsF with
            | none => none
            | some rest => some (ids ++ own ++ rest)
        else
          match t.externalF with
          | some ext =>
            some (ids ++ ext.sh.properties.map (fun p => truthyOr p.sh.id p.sh.targetId))
          | none => some ids) (some [])

/-- Body of `includeStandardObject` at one visitor level (recursive calls go through `v`). -/
def includeStandardObjectF (v : Visitor) : DeclVisitorContext → OType → Option (TypeModel × DeclVisitorContext) :=
  fun context type =>
    match v.includeInheritedTypes context type with
    | none => none
    | some ((exts, impls), ctx1) =>
      let inherited := exts ++ impls
      match v.getAllPropIds ctx1.refs inherited with
      | none => none
      | some targets =>
        match mapWithCtx v.getPropType ctx1
            (type.sh.properties.filter
              (fun p => !(targets.contains (truthyOr p.sh.id p.sh.targetId)))) with
        | none => none
        | some (propsDescriptor, ctx2) =>
          match indexStep v.getIndexType ctx2 type.sh.numberIndexType
              (numberIndexInherited inherited type) TypeModel.number
              type.sh.declaredNumberIndexInfo with
          | none => none
          | some (numPart, ctx3) =>
            match indexStep v.getIndexType ctx3 type.sh.stringIndexType
                (stringIndexInherited inherited type) TypeModel.string
                type.sh.declaredStringIndexInfo with
            | none => none
            | some (strPart, ctx4) =>
              match mapWithCtx v.getFunctionType ctx4 type.sh.callSignatures with
              | none => none
              | some (callParts, ctx5) =>
                match v.getTypeParameters ctx5 type.sh.typeParameters with
                | none => none
                | some (tps, ctx6) =>
                  some (.interface exts (getComment type.sh.symbol)
                    (propsDescriptor ++ numPart ++ strPart ++ callParts) tps none, ctx6)

/-- Body of `includeClassObject` at one visitor level (recursive calls go through `v`). -/
def includeClassObjectF (v : Visitor) : DeclVisitorContext → OType → Option (TypeModel × DeclVisitorContext) :=
  fun context type =>
    match v.includeStandardObject context type with
    | none => none
    | some (obj, ctx1) =>
      match v.includeInheritedTypes ctx1 type with
      | none => none
      | some ((_, impls2), ctx2) =>
        match mapWithCtx (fun c m =>
          match m.sh.valueDeclaration with
          | none => none
          | some vd =>
            match vd.symbol with
            | none => none
            | some s => v.getPropType c s) ctx2
            (type.sh.exportsOfModule.filter
              (fun m => (m.sh.flags &&& SymbolFlags.Prototype) == 0)) with
        | none => none
        | some (staticProps, ctx3) =>
          match v.getConstructorTypes ctx3 type with
          | none => none
          | some (ctors, ctx4) =>
            match obj with
            | .interface oexts ocomment oprops otypes omapped =>
              some (.cls oexts ocomment (oprops ++ staticProps ++ ctors) otypes omapped
                impls2, ctx4)
            | _ => none

/-- Body of `includeMappedObject` at one visitor level (recursive calls go through `v`). -/
def includeMappedObjectF (v : Visitor) : DeclVisitorContext → OType → Option (TypeModel × DeclVisitorContext) :=
  fun context type =>
    match type.sh.typeParameter with
    | none => none
    | some tp =>
      match (tp.sh.symbol.bind (fun s => s.sh.declarations.head?)).bind
          (fun d => d.mappedParent) with
      | none => none
      | some mp =>
        match (type.sh.symbol.bind (fun s => s.sh.declarations.head?)).bind
            (fun d => d.typeNode) with
        | none => none
        | some declType =>
          match mp.typeParameter.sh.symbol with
          | none => none
          | some isym =>
            match v.includeConstraint context mp.typeParameter with
            | none => none
            | some (constraint, c1) =>
              match v.includeType c1 (nodeResolved declType) with
              | none => none
              | some (vm, c2) =>
                some (.interface [] (getComment type.sh.symbol) [] []
                  (some (TypeModelMapped.mk isym.sh.name constraint mp.questionToken vm)),
                  c2)

/-- Body of `includeObject` at one visitor level (recursive calls go through `v`). -/
def includeObjectF (v : Visitor) : DeclVisitorContext → OType → Option (Option TypeModel × DeclVisitorContext) :=
  fun context type =>
    if isObjectType type then
      if type.sh.objectFlags == ObjectFlags.Mapped then
        match v.includeMappedObject context type with
        | none => none
        | some (m, c) => some (some m, c)
      else if type.sh.objectFlags == (ObjectFlags.Class ||| ObjectFlags.Reference) then
        match v.includeClassObject context type with
        | none => none
        | some (m, c) => some (some m, c)
      else
        match v.includeStandardObject context type with
        | none => none
        | some (m, c) => some (some m, c)
    else some (none, context)

/-- Body of `includeIndex` at one visitor level (recursive calls go through `v`). -/
def includeIndexF (v : Visitor) : DeclVisitorContext → Option OType → Option (Option TypeModel × DeclVisitorContext) :=
  fun context type =>
    match type with
    | some t =>
      if t.sh.flags == TypeFlags.TypeParameter then
        match v.includeType context t with
        | none => none
        | some (m, c) => some (some m, c)
      else if t.sh.flags == TypeFlags.Index then
        match t.sh.innerType with
        | none => none
        | some inner =>
          match v.getKeyOfType context inner with
          | none => none
          | some (m, c) => some (some m, c)
      else some (none, context)
    | none => some (none, context)

/-- Body of `includeCombinator` at one visitor level (recursive calls go through `v`). -/
def includeCombinatorF (v : Visitor) : DeclVisitorContext → OType → Option (Option TypeModel × DeclVisitorContext) :=
  fun context type =>
    if isTupleType type then
      match type.sh.typeArguments with
      | none => none
      | some args =>
        match mapWithCtx v.includeType context args with
        | none => none
        | some (l, c2) => some (some (.tuple l), c2)
    else if isReferenceType type then
      match type.sh.symbol with
      | none => none
      | some s =>
        match v.getTypeArguments context type with
        | none => none
        | some (args, c2) => some (some (.ref args s.sh.name (some type)), c2)
    else if (type.sh.flags &&& TypeFlags.Union) != 0 then
      match v.getUnion context type.sh.types with
      | none => none
      | some (m, c) => some (some m, c)
    else if (type.sh.flags &&& TypeFlags.Intersection) != 0 then
      match mapWithCtx v.includeType context type.sh.types with
      | none => none
      | some (l, c) => some (some (.intersection l), c)
    else if isIndexType type then
      match v.includeIndex context type.sh.indexType with
      | none => none
      | some (idx, c1) =>
        match type.sh.objectType with
        | some ot =>
          match v.includeType c1 ot with
          | none => none
          | some (om, c2) => some (some (.indexedAccess idx (some om)), c2)
        | none => some (some (.indexedAccess idx none), c1)
    else some (none, context)

/-- Body of `includeReference` at one visitor level (recursive calls go through `v`). -/
def includeReferenceF (v : Visitor) : DeclVisitorContext → OType → Option (Option TypeModel × DeclVisitorContext) :=
  fun context type =>
    if type.sh.nodeKind == some SyntaxKind.TypeAliasDeclaration then
      match v.getTypeParameters context type.sh.typeParameters with
      | none => none
      | some (types, c1) =>
        match v.getParameterType c1 type.sh.typeNode with
        | none => none
        | some (child, c2) =>
          some (some (.alias (getComment type.sh.symbol) types child), c2)
    else some (none, context)

/-- Body of `includeNamed` at one visitor level (recursive calls go through `v`). -/
def includeNamedF (v : Visitor) : DeclVisitorContext → OType → Option (Option TypeModel × DeclVisitorContext) :=
  fun context type =>
    match v.includeBasic context type with
    | none => none
    | some (some m, c) => some (some m, c)
    | some (none, c1) =>
      match v.includeObject c1 type with
      | none => none
      | some (some m, c) => some (some m, c)
      | some (none, c2) => v.includeReference c2 type

/-- Body of `includeAnonymousNode` at one visitor level (recursive calls go through `v`). -/
def includeAnonymousNodeF (v : Visitor) : DeclVisitorContext → Option ONode → Option (TypeModel × DeclVisitorContext) :=
  fun context node =>
    match v.includeNode context node with
    | none => none
    | some (some m, c) => some (m, c)
    | some (none, c1) =>
      match node with
      | none => none
      | some n => v.includeAnonymous c1 (nodeResolved n)

/-- Body of `includeAnonymous` at one visitor level (recursive calls go through `v`). -/
def includeAnonymousF (v : Visitor) : DeclVisitorContext → OType → Option (TypeModel × DeclVisitorContext) :=
  fun context type =>
    match v.includeBasic context type with
    | none => none
    | some (some m, c) => some (m, c)
    | some (none, c1) =>
      match v.includeCombinator c1 type with
      | none => none
      | some (some m, c) => some (m, c)
      | some (none, c2) =>
        match v.includeHiddenAnonymous c2 type with
        | none => none
        | some (some m, c) => some (m, c)
        | some (none, c3) =>
          match v.includeObject c3 type with
          | none => none
          | some (some m, c) => some (m, c)
          | some (none, c4) => some (.unidentified, c4)

/-- Body of `makeAliasRef` at one visitor level (recursive calls go through `v`). -/
def makeAliasRefF (v : Visitor) : DeclVisitorContext → OType → String → Option (TypeModel × DeclVisitorContext) :=
  fun context type name0 =>
    match type.sh.aliasSymbol with
    | none => none
    | some asym =>
      match asym.sh.declarations.head? with
      | none => none
      | some decl =>
        let tail := fun (c : DeclVisitorContext) (name1 : String) =>
          match (match type.sh.aliasTypeArguments with
                 | none => some ([], c)
                 | some l => mapWithCtx v.includeType c l) with
          | none => none
          | some (types, c2) =>
            some (TypeModel.ref (normalizeTypeParameters c2 type (some decl) types name1)
              name1 none, c2)
        match v.includeExternal context (declAsType decl) with
        | none => none
        | some (ext, c1) =>
          match ext with
          | some extm =>
            if extm.kindName == "ref" then tail c1 ((extm.refNameF).getD name0)
            else tail c1 name0
          | none =>
            if !(hasRef c1.refs name0) then
              let c2 : DeclVisitorContext :=
                ⟨setRef c1.refs name0 (some (.ref [] name0 none))⟩
              match (match decl.typeParameters with
                     | none => some ([], c2)
                     | some l => mapWithCtx v.includeTypeParameter c2 l) with
              | none => none
              | some (tps, c3) =>
                match decl.locType with
                | none => none
                | some lt =>
                  match v.includeAnonymous c3 lt with
                  | none => none
                  | some (child, c4) =>
                    tail ⟨setRef c4.refs name0
                      (some (.alias (getComment decl.symbol) tps child))⟩ name0
            else tail c1 name0

/-- Body of `getTypeModel` at one visitor level (recursive calls go through `v`). -/
def getTypeModelF (v : Visitor) : DeclVisitorContext → OType → Option String → Option (TypeModel × DeclVisitorContext) :=
  fun context type name =>
    if jsTruthyStr name then
      let n := name.getD ""
      let afterAlias := fun (c0 : DeclVisitorContext) =>
        match v.includeExternal c0 type with
        | none => none
        | some (some ext, c1) => some (ext, c1)
        | some (none, c1) =>
          if !(isAnonymous (some n)) && !(isAnonymousObject type) then
            makeRef (fun c t nm => v.includeRef c t nm none) c1 type n v.includeNamed
          else v.includeAnonymous c1 type
      match type.sh.aliasSymbol with
      | some asym =>
        if (match type.sh.symbol with
            | none => true
            | some s => asym.sh.id != s.sh.id) then
          v.makeAliasRef context type n
        else afterAlias context
      | none => afterAlias context
    else v.includeAnonymous context type

/-- Body of `includeType` at one visitor level (recursive calls go through `v`). -/
def includeTypeF (v : Visitor) : DeclVisitorContext → OType → Option (TypeModel × DeclVisitorContext) :=
  fun context type =>
    if type.sh.stringsOnly == some false then
      match type.sh.innerType with
      | none => none
      | some inner =>
        match v.includeType context inner with
        | none => none
        | some (m, c) => some (.prefixT "keyof" m, c)
    else
      v.getTypeModel context type
        (truthyOrStr (type.sh.aliasSymbol.map (fun s => s.sh.name))
          (type.sh.symbol.map (fun s => s.sh.name)))

/-- One step of the visitor tower: the faithful translation of every
function body in `visit.ts`, with each recursive call going through the
previous level `v`. -/
def visitStep (v : Visitor) : Visitor where
  getTypeArguments := getTypeArgumentsF v
  getTypeParameters := getTypeParametersF v
  getParameterType := getParameterTypeF v
  getFunctionParameters := getFunctionParametersF v
  getFunctionType := getFunctionTypeF v
  getConstructorTypes := getConstructorTypesF v
  getKeyOfType := getKeyOfTypeF v
  includeNode := includeNodeF v
  getPropValue := getPropValueF v
  getPropType := getPropTypeF v
  getIndexType := getIndexTypeF v
  getUnion := getUnionF v
  includeHiddenAnonymous := includeHiddenAnonymousF v
  includeExternal := includeExternalF v
  includeRef := includeRefF v
  includeMember := includeMemberF v
  includeBasic := includeBasicF v
  includeInheritedTypes := includeInheritedTypesF v
  includeConstraint := includeConstraintF v
  includeDefaultTypeArgument := includeDefaultTypeArgumentF v
  includeTypeParameter := includeTypeParameterF v
  getAllPropIds := getAllPropIdsF v
  includeStandardObject := includeStandardObjectF v
  includeClassObject := includeClassObjectF v
  includeMappedObject := includeMappedObjectF v
  includeObject := includeObjectF v
  includeIndex := includeIndexF v
  includeCombinator := includeCombinatorF v
  includeReference := includeReferenceF v
  includeNamed := includeNamedF v
  includeAnonymousNode := includeAnonymousNodeF v
  includeAnonymous := includeAnonymousF v
  makeAliasRef := makeAliasRefF v
  getTypeModel := getTypeModelF v
  includeType := includeTypeF v
/-- The bottom of the tower: out of fuel, every query fails. -/
def visitBot : Visitor where
  getTypeArguments := fun _ _ => none
  getTypeParameters := fun _ _ => none
  getParameterType := fun _ _ => none
  getFunctionParameters := fun _ _ => none
  getFunctionType := fun _ _ => none
  getConstructorTypes := fun _ _ => none
  getKeyOfType := fun _ _ => none
  includeNode := fun _ _ => none
  getPropValue := fun _ _ => none
  getPropType := fun _ _ => none
  getIndexType := fun _ _ _ _ => none
  getUnion := fun _ _ => none
  includeHiddenAnonymous := fun _ _ => none
  includeExternal := fun _ _ => none
  includeRef := fun _ _ _ _ => none
  includeMember := fun _ _ => none
  includeBasic := fun _ _ => none
  includeInheritedTypes := fun _ _ => none
  includeConstraint := fun _ _ => none
  includeDefaultTypeArgument := fun _ _ => none
  includeTypeParameter := fun _ _ => none
  getAllPropIds := fun _ _ => none
  includeStandardObject := fun _ _ => none
  includeClassObject := fun _ _ => none
  includeMappedObject := fun _ _ => none
  includeObject := fun _ _ => none
  includeIndex := fun _ _ => none
  includeCombinator := fun _ _ => none
  includeReference := fun _ _ => none
  includeNamed := fun _ _ => none
  includeAnonymousNode := fun _ _ => none
  includeAnonymous := fun _ _ => none
  makeAliasRef := fun _ _ _ => none
  getTypeModel := fun _ _ _ => none
  includeType := fun _ _ => none

/-- The visitor tower: fuel-indexed family of interpreters. -/
def visitors : Nat → Visitor
  | 0 => visitBot
  | n + 1 => visitStep (visitors n)

/-! ## The visitor functions, fuel-indexed

Each definition below is the `visit.ts` function of the same name at a
given recursion fuel; a call at fuel `n + 1` recurses at fuel `n`. -/

def getTypeArguments (fuel : Nat) := (visitors fuel).getTypeArguments
def getTypeParameters (fuel : Nat) := (visitors fuel).getTypeParameters
def getParameterType (fuel : Nat) := (visitors fuel).getParameterType
def getFunctionParameters (fuel : Nat) := (visitors fuel).getFunctionParameters
def getFunctionType (fuel : Nat) := (visitors fuel).getFunctionType
def getConstructorTypes (fuel : Nat) := (visitors fuel).getConstructorTypes
def getKeyOfType (fuel : Nat) := (visitors fuel).getKeyOfType
def includeNode (fuel : Nat) := (visitors fuel).includeNode
def getPropValue (fuel : Nat) := (visitors fuel).getPropValue
def getPropType (fuel : Nat) := (visitors fuel).getPropType
def getIndexType (fuel : Nat) := (visitors fuel).getIndexType
def getUnion (fuel : Nat) := (visitors fuel).getUnion
def includeHiddenAnonymous (fuel : Nat) := (visitors fuel).includeHiddenAnonymous
def includeExternal (fuel : Nat) := (visitors fuel).includeExternal
def includeRef (fuel : Nat) := (visitors fuel).includeRef
def includeMember (fuel : Nat) := (visitors fuel).includeMember
def includeBasic (fuel : Nat) := (visitors fuel).includeBasic
def includeInheritedTypes (fuel : Nat) := (visitors fuel).includeInheritedTypes
def includeConstraint (fuel : Nat) := (visitors fuel).includeConstraint
def includeDefaultTypeArgument (fuel : Nat) := (visitors fuel).includeDefaultTypeArgument
def includeTypeParameter (fuel : Nat) := (visitors fuel).includeTypeParameter
def getAllPropIds (fuel : Nat) := (visitors fuel).getAllPropIds
def includeStandardObject (fuel : Nat) := (visitors fuel).includeStandardObject
def includeClassObject (fuel : Nat) := (visitors fuel).includeClassObject
def includeMappedObject (fuel : Nat) := (visitors fuel).includeMappedObject
def includeObject (fuel : Nat) := (visitors fuel).includeObject
def includeIndex (fuel : Nat) := (visitors fuel).includeIndex
def includeCombinator (fuel : Nat) := (visitors fuel).includeCombinator
def includeReference (fuel : Nat) := (visitors fuel).includeReference
def includeNamed (fuel : Nat) := (visitors fuel).includeNamed
def includeAnonymousNode (fuel : Nat) := (visitors fuel).includeAnonymousNode
def includeAnonymous (fuel : Nat) := (visitors fuel).includeAnonymous
def makeAliasRef (fuel : Nat) := (visitors fuel).makeAliasRef
def getTypeModel (fuel : Nat) := (visitors fuel).getTypeModel
def includeType (fuel : Nat) := (visitors fuel).includeType

/-- `includeExportedType` from the source: classify an exported named type
and fill the registry under the symbol's name only when classification
returned a non-`ref` node. -/
def includeExportedType (fuel : Nat) (context : DeclVisitorContext) (type : OType) :
    Option DeclVisitorContext :=
  match type.sh.symbol with
  | none => none
  | some s =>
    match includeType fuel context type with
    | none => none
    | some (node, c1) =>
      if node.kindName != "ref" then some ⟨setRef c1.refs s.sh.name (some node)⟩
      else some c1

/-! ## Concrete oracle values used by the verification scenarios -/

/-- An empty symbol shape; concrete scenarios override the relevant fields. -/
def emptyOSymSh : OSymSh OType OSym where
  name := ""
  id := none
  targetId := none
  flags := 0
  modifiers := ""
  comment := ""
  isGlobal := false
  globalName := ""
  declarations := []
  valueDeclaration := none

/-- An empty local declaration; concrete scenarios override the relevant
fields. -/
def emptyODecl : ODecl where
  default := none
  constraint := none
  typeParameters := none
  questionToken := false
  dotDotDotToken := false
  typeNode := none
  isMethodSignature := false
  parameters := []
  isInterfaceOrClass := false
  heritageClauses := []
  symbol := none
  locType := none
  symbolLocType := none
  fileKind := .localFile
  hiddenParentType := none
  mappedParent := none

/-- A named local symbol with one (empty) declaration. -/
def symNamed (n : String) : OSym :=
  .mk { emptyOSymSh with name := n, declarations := [emptyODecl] }

/-! ## Projection lemmas: visitor fields at each level are the fuel-indexed
definitions -/

theorem vis_getTypeArguments (n : Nat) :
    (visitors n).getTypeArguments = getTypeArguments n := rfl
theorem vis_getTypeParameters (n : Nat) :
    (visitors n).getTypeParameters = getTypeParameters n := rfl
theorem vis_getParameterType (n : Nat) :
    (visitors n).getParameterType = getParameterType n := rfl
theorem vis_getFunctionParameters (n : Nat) :
    (visitors n).getFunctionParameters = getFunctionParameters n := rfl
theorem vis_getFunctionType (n : Nat) :
    (visitors n).getFunctionType = getFunctionType n := rfl
theorem vis_getConstructorTypes (n : Nat) :
    (visitors n).getConstructorTypes = getConstructorTypes n := rfl
theorem vis_getKeyOfType (n : Nat) :
    (visitors n).getKeyOfType = getKeyOfType n := rfl
theorem vis_includeNode (n : Nat) :
    (visitors n).includeNode = includeNode n := rfl
theorem vis_getPropValue (n : Nat) :
    (visitors n).getPropValue = getPropValue n := rfl
theorem vis_getPropType (n : Nat) :
    (visitors n).getPropType = getPropType n := rfl
theorem vis_getIndexType (n : Nat) :
    (visitors n).getIndexType = getIndexType n := rfl
theorem vis_getUnion (n : Nat) :
    (visitors n).getUnion = getUnion n := rfl
theorem vis_includeHiddenAnonymous (n : Nat) :
    (visitors n).includeHiddenAnonymous = includeHiddenAnonymous n := rfl
theorem vis_includeExternal (n : Nat) :
    (visitors n).includeExternal = includeExternal n := rfl
theorem vis_includeRef (n : Nat) :
    (visitors n).includeRef = includeRef n := rfl
theorem vis_includeMember (n : Nat) :
    (visitors n).includeMember = includeMember n := rfl
theorem vis_includeBasic (n : Nat) :
    (visitors n).includeBasic = includeBasic n := rfl
theorem vis_includeInheritedTypes (n : Nat) :
    (visitors n).includeInheritedTypes = includeInheritedTypes n := rfl
theorem vis_includeConstraint (n : Nat) :
    (visitors n).includeConstraint = includeConstraint n := rfl
theorem vis_includeDefaultTypeArgument (n : Nat) :
    (visitors n).includeDefaultTypeArgument = includeDefaultTypeArgument n := rfl
theorem vis_includeTypeParameter (n : Nat) :
    (visitors n).includeTypeParameter = includeTypeParameter n := rfl
theorem vis_getAllPropIds (n : Nat) :
    (visitors n).getAllPropIds = getAllPropIds n := rfl
theorem vis_includeStandardObject (n : Nat) :
    (visitors n).includeStandardObject = includeStandardObject n := rfl
theorem vis_includeClassObject (n : Nat) :
    (visitors n).includeClassObject = includeClassObject n := rfl
theorem vis_includeMappedObject (n : Nat) :
    (visitors n).includeMappedObject = includeMappedObject n := rfl
theorem vis_includeObject (n : Nat) :
    (visitors n).includeObject = includeObject n := rfl
theorem vis_includeIndex (n : Nat) :
    (visitors n).includeIndex = includeIndex n := rfl
theorem vis_includeCombinator (n : Nat) :
    (visitors n).includeCombinator = includeCombinator n := rfl
theorem vis_includeReference (n : Nat) :
    (visitors n).includeReference = includeReference n := rfl
theorem vis_includeNamed (n : Nat) :
    (visitors n).includeNamed = includeNamed n := rfl
theorem vis_includeAnonymousNode (n : Nat) :
    (visitors n).includeAnonymousNode = includeAnonymousNode n := rfl
theorem vis_includeAnonymous (n : Nat) :
    (visitors n).includeAnonymous = includeAnonymous n := rfl
theorem vis_makeAliasRef (n : Nat) :
    (visitors n).makeAliasRef = makeAliasRef n := rfl
theorem vis_getTypeModel (n : Nat) :
    (visitors n).getTypeModel = getTypeModel n := rfl
theorem vis_includeType (n : Nat) :
    (visitors n).includeType = includeType n := rfl

/-! ## Unfolding lemmas: each function at fuel `n + 1` is its body over the
level-`n` visitor -/

theorem getTypeArguments_succ (n : Nat) : getTypeArguments (n + 1) = getTypeArgumentsF (visitors n) := rfl
theorem getTypeParameters_succ (n : Nat) : getTypeParameters (n + 1) = getTypeParametersF (visitors n) := rfl
theorem getParameterType_succ (n : Nat) : getParameterType (n + 1) = getParameterTypeF (visitors n) := rfl
theorem getFunctionParameters_succ (n : Nat) : getFunctionParameters (n + 1) = getFunctionParametersF (visitors n) := rfl
theorem getFunctionType_succ (n : Nat) : getFunctionType (n + 1) = getFunctionTypeF (visitors n) := rfl
theorem getConstructorTypes_succ (n : Nat) : getConstructorTypes (n + 1) = getConstructorTypesF (visitors n) := rfl
theorem getKeyOfType_succ (n : Nat) : getKeyOfType (n + 1) = getKeyOfTypeF (visitors n) := rfl
theorem includeNode_succ (n : Nat) : includeNode (n + 1) = includeNodeF (visitors n) := rfl
theorem getPropValue_succ (n : Nat) : getPropValue (n + 1) = getPropValueF (visitors n) := rfl
theorem getPropType_succ (n : Nat) : getPropType (n + 1) = getPropTypeF (visitors n) := rfl
theorem getIndexType_succ (n : Nat) : getIndexType (n + 1) = getIndexTypeF (visitors n) := rfl
theorem getUnion_succ (n : Nat) : getUnion (n + 1) = getUnionF (visitors n) := rfl
theorem includeHiddenAnonymous_succ (n : Nat) : includeHiddenAnonymous (n + 1) = includeHiddenAnonymousF (visitors n) := rfl
theorem includeExternal_succ (n : Nat) : includeExternal (n + 1) = includeExternalF (visitors n) := rfl
theorem includeRef_succ (n : Nat) : includeRef (n + 1) = includeRefF (visitors n) := rfl
theorem includeMember_succ (n : Nat) : includeMember (n + 1) = includeMemberF (visitors n) := rfl
theorem includeBasic_succ (n : Nat) : includeBasic (n + 1) = includeBasicF (visitors n) := rfl
theorem includeInheritedTypes_succ (n : Nat) : includeInheritedTypes (n + 1) = includeInheritedTypesF (visitors n) := rfl
theorem includeConstraint_succ (n : Nat) : includeConstraint (n + 1) = includeConstraintF (visitors n) := rfl
theorem includeDefaultTypeArgument_succ (n : Nat) : includeDefaultTypeArgument (n + 1) = includeDefaultTypeArgumentF (visitors n) := rfl
theorem includeTypeParameter_succ (n : Nat) : includeTypeParameter (n + 1) = includeTypeParameterF (visitors n) := rfl
theorem getAllPropIds_succ (n : Nat) : getAllPropIds (n + 1) = getAllPropIdsF (visitors n) := rfl
theorem includeStandardObject_succ (n : Nat) : includeStandardObject (n + 1) = includeStandardObjectF (visitors n) := rfl
theorem includeClassObject_succ (n : Nat) : includeClassObject (n + 1) = includeClassObjectF (visitors n) := rfl
theorem includeMappedObject_succ (n : Nat) : includeMappedObject (n + 1) = includeMappedObjectF (visitors n) := rfl
theorem includeObject_succ (n : Nat) : includeObject (n + 1) = includeObjectF (visitors n) := rfl
theorem includeIndex_succ (n : Nat) : includeIndex (n + 1) = includeIndexF (visitors n) := rfl
theorem includeCombinator_succ (n : Nat) : includeCombinator (n + 1) = includeCombinatorF (visitors n) := rfl
theorem includeReference_succ (n : Nat) : includeReference (n + 1) = includeReferenceF (visitors n) := rfl
theorem includeNamed_succ (n : Nat) : includeNamed (n + 1) = includeNamedF (visitors n) := rfl
theorem includeAnonymousNode_succ (n : Nat) : includeAnonymousNode (n + 1) = includeAnonymousNodeF (visitors n) := rfl
theorem includeAnonymous_succ (n : Nat) : includeAnonymous (n + 1) = includeAnonymousF (visitors n) := rfl
theorem makeAliasRef_succ (n : Nat) : makeAliasRef (n + 1) = makeAliasRefF (visitors n) := rfl
theorem getTypeModel_succ (n : Nat) : getTypeModel (n + 1) = getTypeModelF (visitors n) := rfl
theorem includeType_succ (n : Nat) : includeType (n + 1) = includeTypeF (visitors n) := rfl

/-! ## Shared lemmas -/

/-- A successful `includeStandardObject` always yields an `interface` node
with no `mapped` descriptor. -/
theorem includeStandardObject_shape (fuel : Nat) (ctx : DeclVisitorContext) (t : OType)
    (m : TypeModel) (c : DeclVisitorContext)
    (h : includeStandardObject fuel ctx t = some (m, c)) :
    ∃ es cm ps ts, m = TypeModel.interface es cm ps ts none := by
  match fuel with
  | 0 => simp [includeStandardObject, visitors, visitBot] at h
  | n + 1 =>
    rw [includeStandardObject_succ] at h
    unfold includeStandardObjectF at h
    rcases h1 : (visitors n).includeInheritedTypes ctx t with _ | ⟨⟨exts, impls⟩, ctx1⟩
    · simp [h1] at h
    · simp only [h1] at h
      rcases h2 : (visitors n).getAllPropIds ctx1.refs (exts ++ impls) with _ | targets
      · simp [h2] at h
      · simp only [h2] at h
        repeat' split at h
        all_goals simp at h
        all_goals (obtain ⟨hL, hR⟩ := h; exact ⟨_, _, _, _, hL.symm⟩)

/-! ## Claim C9: object-shape dispatch -/

/-- C9: `includeObject` dispatches on the exact value of `objectFlags`:
exactly `Mapped` selects the mapped builder, exactly `Class | Reference`
selects the class builder, and every other combination of flags on an
object type goes to the standard builder, whose successful result is always
an `interface` node. -/
theorem claim_C9_objectDispatch (fuel : Nat) (ctx : DeclVisitorContext) (t : OType)
    (hobj : isObjectType t = true) :
    (t.sh.objectFlags = ObjectFlags.Mapped →
      includeObject (fuel + 1) ctx t =
        match includeMappedObject fuel ctx t with
        | none => none
        | some (m, c) => some (some m, c)) ∧
    (t.sh.objectFlags = (ObjectFlags.Class ||| ObjectFlags.Reference) →
      includeObject (fuel + 1) ctx t =
        match includeClassObject fuel ctx t with
        | none => none
        | some (m, c) => some (some m, c)) ∧
    (t.sh.objectFlags ≠ ObjectFlags.Mapped →
      t.sh.objectFlags ≠ (ObjectFlags.Class ||| ObjectFlags.Reference) →
      includeObject (fuel + 1) ctx t =
        match includeStandardObject fuel ctx t with
        | none => none
        | some (m, c) => some (some m, c)) ∧
    (∀ m c, includeStandardObject fuel ctx t = some (m, c) → m.kindName = "interface") := by
  refine ⟨fun h1 => ?_, fun h2 => ?_, fun h3 h4 => ?_, fun m c h5 => ?_⟩
  · simp [includeObject_succ, includeObjectF, vis_includeMappedObject, vis_includeClassObject,
      vis_includeStandardObject, hobj, h1, ObjectFlags.Mapped, ObjectFlags.Class,
      ObjectFlags.Reference]
  · simp [includeObject_succ, includeObjectF, vis_includeMappedObject, vis_includeClassObject,
      vis_includeStandardObject, hobj, h2, ObjectFlags.Mapped, ObjectFlags.Class,
      ObjectFlags.Reference]
  · have e1 : (t.sh.objectFlags == ObjectFlags.Mapped) = false := by
      simp [ObjectFlags.Mapped] at h3 ⊢; exact h3
    have e2 : (t.sh.objectFlags == (ObjectFlags.Class ||| ObjectFlags.Reference)) = false := by
      simp [ObjectFlags.Class, ObjectFlags.Reference] at h4 ⊢; exact h4
    simp [includeObject_succ, includeObjectF, vis_includeMappedObject, vis_includeClassObject,
      vis_includeStandardObject, hobj, e1, e2]
  · obtain ⟨es, cm, ps, ts, rfl⟩ := includeStandardObject_shape fuel ctx t m c h5
    rfl

/-- An object type whose object flags are `Class` alone (no `Reference`). -/
def w9type : OType :=
  .mk { emptyOTypeSh with id := 5, flags := TypeFlags.ObjectF, objectFlags := ObjectFlags.Class }

/-- C9 witness: a `Class`-without-`Reference` object type is dispatched to
the standard interface builder. -/
theorem claim_C9_witness :
    isObjectType w9type = true ∧
    includeObject 3 ⟨[]⟩ w9type =
      match includeStandardObject 2 ⟨[]⟩ w9type with
      | none => none
      | some (m, c) => some (some m, c) :=
  ⟨rfl, (claim_C9_objectDispatch 2 ⟨[]⟩ w9type rfl).2.2.1 (by decide) (by decide)⟩

/-! ## Claim C10: registry writes by `includeExportedType` -/

/-- C10: `includeExportedType` writes the classified node under the symbol's
name exactly when classification returned a non-`ref` node; when a `ref`
came back, the entry-point call leaves the registry exactly as
`includeType` left it. -/
theorem claim_C10_exportWrite (fuel : Nat) (ctx : DeclVisitorContext) (t : OType)
    (c2 : DeclVisitorContext) (h : includeExportedType fuel ctx t = some c2) :
    ∃ s node c1, t.sh.symbol = some s ∧ includeType fuel ctx t = some (node, c1) ∧
      ((node.kindName ≠ "ref" ∧ c2.refs = setRef c1.refs s.sh.name (some node)) ∨
       (node.kindName = "ref" ∧ c2 = c1)) := by
  unfold includeExportedType at h
  split at h
  next => exact absurd h (by simp)
  next s hs =>
  split at h
  next => exact absurd h (by simp)
  next node c1 hit =>
  refine ⟨s, node, c1, hs, hit, ?_⟩
  split at h
  · left
    rename_i hcond
    exact ⟨by simpa [bne_iff_ne] using hcond, by rw [← Option.some.inj h]⟩
  · right
    rename_i hcond
    have hk : node.kindName = "ref" := by
      by_contra hne
      exact hcond (by simp [bne_iff_ne, hne])
    exact ⟨hk, (Option.some.inj h).symm⟩

/-- The named local type `A` whose body classifies as `null`. -/
def wAtype : OType :=
  .mk { emptyOTypeSh with id := 1, flags := TypeFlags.Null, symbol := some (symNamed "A") }

/-- C10 witness: exporting `A` (whose classification is the `ref` created
during its own walk would not be a ref here; classification of `A` produces
a `ref` after registration, so the entry-point write is skipped). -/
theorem claim_C10_witness :
    includeExportedType 4 ⟨[]⟩ wAtype = some ⟨[("A", some TypeModel.null)]⟩ ∧
    ∃ s node c1, wAtype.sh.symbol = some s ∧ includeType 4 ⟨[]⟩ wAtype = some (node, c1) ∧
      ((node.kindName ≠ "ref" ∧
          (⟨[("A", some TypeModel.null)]⟩ : DeclVisitorContext).refs =
            setRef c1.refs s.sh.name (some node)) ∨
       (node.kindName = "ref" ∧ (⟨[("A", some TypeModel.null)]⟩ : DeclVisitorContext) = c1)) :=
  ⟨rfl, claim_C10_exportWrite 4 ⟨[]⟩ wAtype ⟨[("A", some TypeModel.null)]⟩ rfl⟩

/-! ## Claim C4: fallback for unrecognized types -/

/-- A named local type none of the classifier stages recognizes
(`flags = 0`, no recognizable object/alias/node shape). -/
def c4type : OType :=
  .mk { emptyOTypeSh with id := 9, flags := 0, symbol := some (symNamed "N") }

/-- C4 counterexample: for a named (registered) type that no classifier
stage recognizes, the body builder `includeNamed` returns no node at all
(JS `undefined`) rather than an `unidentified` node, and the walk fills the
registry entry for the name with that absent value: after `includeType`,
the registry maps `"N"` to the stored-`undefined` value, which is not the
`unidentified` terminal node the claim asserts. -/
theorem claim_C4_counterexample :
    includeNamed 5 ⟨[("N", some (TypeModel.ref [] "N" none))]⟩ c4type =
      some (none, ⟨[("N", some (TypeModel.ref [] "N" none))]⟩) ∧
    includeType 6 ⟨[]⟩ c4type = some (TypeModel.ref [] "N" none, ⟨[("N", none)]⟩) ∧
    lookupRef [("N", (none : Option TypeModel))] "N" = some none ∧
    (some (none : Option TypeModel)) ≠ some (some TypeModel.unidentified) :=
  ⟨rfl, rfl, rfl, by simp⟩

/-- C4 (amended): an anonymous type that the primitive classifier, the
combinator builder, the hidden-anonymous resolution and the object builder
all decline degrades to the explicit `unidentified` terminal node; a named
type whose body none of `includeBasic`/`includeObject`/`includeReference`
recognize yields no node from `includeNamed` (the registry entry is filled
with the absent value while the requester still receives a `ref`), so
extraction continues without failing in both cases. -/
theorem claim_C4_unidentifiedFallback (fuel : Nat) (ctx c1 c2 c3 c4 : DeclVisitorContext)
    (t : OType)
    (hb : includeBasic fuel ctx t = some (none, c1))
    (hc : includeCombinator fuel c1 t = some (none, c2))
    (hh : includeHiddenAnonymous fuel c2 t = some (none, c3))
    (ho : includeObject fuel c3 t = some (none, c4)) :
    includeAnonymous (fuel + 1) ctx t = some (.unidentified, c4) ∧
    ∀ d1 d2, includeObject fuel c1 t = some (none, d1) →
      includeReference fuel d1 t = some (none, d2) →
      includeNamed (fuel + 1) ctx t = some (none, d2) := by
  constructor
  · simp only [includeAnonymous_succ, includeAnonymousF, vis_includeBasic,
      vis_includeCombinator, vis_includeHiddenAnonymous, vis_includeObject]
    simp only [hb, hc, hh, ho]
  · intro d1 d2 ho2 hr
    simp only [includeNamed_succ, includeNamedF, vis_includeBasic, vis_includeObject,
      vis_includeReference]
    simp only [hb, ho2, hr]

/-- An anonymous type (no symbol) that no stage recognizes. -/
def w4type : OType := .mk { emptyOTypeSh with id := 10, flags := 0 }

/-- C4 witness: the amended fallback behavior at a concrete unrecognized
anonymous type and at the concrete unrecognized named type. -/
theorem claim_C4_witness :
    includeBasic 2 ⟨[]⟩ w4type = some (none, ⟨[]⟩) ∧
    includeCombinator 2 ⟨[]⟩ w4type = some (none, ⟨[]⟩) ∧
    includeHiddenAnonymous 2 ⟨[]⟩ w4type = some (none, ⟨[]⟩) ∧
    includeObject 2 ⟨[]⟩ w4type = some (none, ⟨[]⟩) ∧
    includeAnonymous 3 ⟨[]⟩ w4type = some (TypeModel.unidentified, ⟨[]⟩) ∧
    includeNamed 3 ⟨[]⟩ w4type = some (none, ⟨[]⟩) :=
  ⟨rfl, rfl, rfl, rfl,
    (claim_C4_unidentifiedFallback 2 ⟨[]⟩ ⟨[]⟩ ⟨[]⟩ ⟨[]⟩ ⟨[]⟩ w4type rfl rfl rfl rfl).1,
    (claim_C4_unidentifiedFallback 2 ⟨[]⟩ ⟨[]⟩ ⟨[]⟩ ⟨[]⟩ ⟨[]⟩ w4type rfl rfl rfl rfl).2
      ⟨[]⟩ ⟨[]⟩ rfl rfl⟩

/-! ## Claim C5: primitive/literal classifier priority -/

/-- First-match-wins scan of a priority list of predicate/kind pairs. -/
def firstMatch (t : OType) : List ((OType → Bool) × String) → Option String
  | [] => none
  | (p, k) :: rest => if p t then some k else firstMatch t rest

/-- The claimed priority order of the primitive/literal classifier: each
entry pairs the oracle-flag predicate with the kind of node produced. -/
def basicPriorityList : List ((OType → Bool) × String) :=
  [(fun t => (t.sh.flags &&& TypeFlags.Any) != 0, "any"),
   (fun t => (t.sh.flags &&& TypeFlags.Unknown) != 0, "unknown"),
   (fun t => (t.sh.flags &&& TypeFlags.StringLiteral) != 0, "literal"),
   (fun t => (t.sh.flags &&& TypeFlags.NumberLiteral) != 0, "literal"),
   (fun t => (t.sh.flags &&& TypeFlags.BooleanLiteral) != 0, "literal"),
   (fun t => (t.sh.flags &&& TypeFlags.EnumLiteral) != 0 &&
     (t.sh.flags &&& TypeFlags.Union) != 0, "enumLiteral"),
   (fun t => (t.sh.flags &&& TypeFlags.Enum) != 0 &&
     (t.sh.flags &&& TypeFlags.Union) != 0, "enum"),
   (fun t => isBigIntLiteral t, "bigintLiteral"),
   (fun t => (t.sh.flags &&& TypeFlags.String) != 0, "string"),
   (fun t => (t.sh.flags &&& TypeFlags.Boolean) != 0, "boolean"),
   (fun t => (t.sh.flags &&& TypeFlags.Number) != 0, "number"),
   (fun t => (t.sh.flags &&& TypeFlags.BigInt) != 0, "bigint"),
   (fun t => (t.sh.flags &&& TypeFlags.ESSymbol) != 0, "esSymbol"),
   (fun t => (t.sh.flags &&& TypeFlags.UniqueESSymbol) != 0, "uniqueEsSymbol"),
   (fun t => (t.sh.flags &&& TypeFlags.Void) != 0, "void"),
   (fun t => (t.sh.flags &&& TypeFlags.Undefined) != 0, "undefined"),
   (fun t => (t.sh.flags &&& TypeFlags.Null) != 0, "null"),
   (fun t => (t.sh.flags &&& TypeFlags.Never) != 0, "never"),
   (fun t => isConditionalType t, "conditional"),
   (fun t => isSubstitutionType t, "substitution"),
   (fun t => (t.sh.flags &&& TypeFlags.NonPrimitive) != 0, "nonPrimitive")]

/-- The kind the priority list assigns to a type: the earliest matching
predicate wins; `none` when no predicate matches. -/
def basicKindOf (t : OType) : Option String := firstMatch t basicPriorityList

set_option maxHeartbeats 2000000 in
/-- C5: whenever the primitive/literal classifier produces a node, that
node's kind is the one of the earliest matching predicate in the claimed
priority order, and a type matching no predicate yields no match (and no
state change) rather than an error. -/
theorem claim_C5_basicPriority (fuel : Nat) (ctx : DeclVisitorContext) (t : OType) :
    (∀ m c, includeBasic (fuel + 1) ctx t = some (some m, c) →
      some m.kindName = basicKindOf t) ∧
    (basicKindOf t = none → includeBasic (fuel + 1) ctx t = some (none, ctx)) := by
  constructor
  · intro m c h
    rw [includeBasic_succ] at h
    unfold includeBasicF at h
    simp only [vis_includeType, vis_includeMember] at h
    simp only [basicKindOf, basicPriorityList, firstMatch]
    by_cases c0 : (t.sh.flags &&& TypeFlags.Any != 0) = true
    · rw [if_pos c0] at h ⊢
      repeat' split at h
      all_goals simp at h
      all_goals (obtain ⟨hL, hR⟩ := h; subst hL; rfl)
    rw [if_neg c0] at h ⊢
    by_cases c1 : (t.sh.flags &&& TypeFlags.Unknown != 0) = true
    · rw [if_pos c1] at h ⊢
      repeat' split at h
      all_goals simp at h
      all_goals (obtain ⟨hL, hR⟩ := h; subst hL; rfl)
    rw [if_neg c1] at h ⊢
    by_cases c2 : (t.sh.flags &&& TypeFlags.StringLiteral != 0) = true
    · rw [if_pos c2] at h ⊢
      repeat' split at h
      all_goals simp at h
      all_goals (obtain ⟨hL, hR⟩ := h; subst hL; rfl)
    rw [if_neg c2] at h ⊢
    by_cases c3 : (t.sh.flags &&& TypeFlags.NumberLiteral != 0) = true
    · rw [if_pos c3] at h ⊢
      repeat' split at h
      all_goals simp at h
      all_goals (obtain ⟨hL, hR⟩ := h; subst hL; rfl)
    rw [if_neg c3] at h ⊢
    by_cases c4 : (t.sh.flags &&& TypeFlags.BooleanLiteral != 0) = true
    · rw [if_pos c4] at h ⊢
      repeat' split at h
      all_goals simp at h
      all_goals (obtain ⟨hL, hR⟩ := h; subst hL; rfl)
    rw [if_neg c4] at h ⊢
    by_cases c5 : ((t.sh.flags &&& TypeFlags.EnumLiteral != 0) && (t.sh.flags &&& TypeFlags.Union != 0)) = true
    · rw [if_pos c5] at h ⊢
      repeat' split at h
      all_goals simp at h
      all_goals (obtain ⟨hL, hR⟩ := h; subst hL; rfl)
    rw [if_neg c5] at h ⊢
    by_cases c6 : ((t.sh.flags &&& TypeFlags.Enum != 0) && (t.sh.flags &&& TypeFlags.Union != 0)) = true
    · rw [if_pos c6] at h ⊢
      repeat' split at h
      all_goals simp at h
      all_goals (obtain ⟨hL, hR⟩ := h; subst hL; rfl)
    rw [if_neg c6] at h ⊢
    by_cases c7 : isBigIntLiteral t = true
    · rw [if_pos c7] at h ⊢
      repeat' split at h
      all_goals simp at h
      all_goals (obtain ⟨hL, hR⟩ := h; subst hL; rfl)
    rw [if_neg c7] at h ⊢
    by_cases c8 : (t.sh.flags &&& TypeFlags.String != 0) = true
    · rw [if_pos c8] at h ⊢
      repeat' split at h
      all_goals simp at h
      all_goals (obtain ⟨hL, hR⟩ := h; subst hL; rfl)
    rw [if_neg c8] at h ⊢
    by_cases c9 : (t.sh.flags &&& TypeFlags.Boolean != 0) = true
    · rw [if_pos c9] at h ⊢
      repeat' split at h
      all_goals simp at h
      all_goals (obtain ⟨hL, hR⟩ := h; subst hL; rfl)
    rw [if_neg c9] at h ⊢
    by_cases c10 : (t.sh.flags &&& TypeFlags.Number != 0) = true
    · rw [if_pos c10] at h ⊢
      repeat' split at h
      all_goals simp at h
      all_goals (obtain ⟨hL, hR⟩ := h; subst hL; rfl)
    rw [if_neg c10] at h ⊢
    by_cases c11 : (t.sh.flags &&& TypeFlags.BigInt != 0) = true
    · rw [if_pos c11] at h ⊢
      repeat' split at h
      all_goals simp at h
      all_goals (obtain ⟨hL, hR⟩ := h; subst hL; rfl)
    rw [if_neg c11] at h ⊢
    by_cases c12 : (t.sh.flags &&& TypeFlags.ESSymbol != 0) = true
    · rw [if_pos c12] at h ⊢
      repeat' split at h
      all_goals simp at h
      all_goals (obtain ⟨hL, hR⟩ := h; subst hL; rfl)
    rw [if_neg c12] at h ⊢
    by_cases c13 : (t.sh.flags &&& TypeFlags.UniqueESSymbol != 0) = true
    · rw [if_pos c13] at h ⊢
      repeat' split at h
      all_goals simp at h
      all_goals (obtain ⟨hL, hR⟩ := h; subst hL; rfl)
    rw [if_neg c13] at h ⊢
    by_cases c14 : (t.sh.flags &&& TypeFlags.Void != 0) = true
    · rw [if_pos c14] at h ⊢
      repeat' split at h
      all_goals simp at h
      all_goals (obtain ⟨hL, hR⟩ := h; subst hL; rfl)
    rw [if_neg c14] at h ⊢
    by_cases c15 : (t.sh.flags &&& TypeFlags.Undefined != 0) = true
    · rw [if_pos c15] at h ⊢
      repeat' split at h
      all_goals simp at h
      all_goals (obtain ⟨hL, hR⟩ := h; subst hL; rfl)
    rw [if_neg c15] at h ⊢
    by_cases c16 : (t.sh.flags &&& TypeFlags.Null != 0) = true
    · rw [if_pos c16] at h ⊢
      repeat' split at h
      all_goals simp at h
      all_goals (obtain ⟨hL, hR⟩ := h; subst hL; rfl)
    rw [if_neg c16] at h ⊢
    by_cases c17 : (t.sh.flags &&& TypeFlags.Never != 0) = true
    · rw [if_pos c17] at h ⊢
      repeat' split at h
      all_goals simp at h
      all_goals (obtain ⟨hL, hR⟩ := h; subst hL; rfl)
    rw [if_neg c17] at h ⊢
    by_cases c18 : isConditionalType t = true
    · rw [if_pos c18] at h ⊢
      repeat' split at h
      all_goals simp at h
      all_goals (obtain ⟨hL, hR⟩ := h; subst hL; rfl)
    rw [if_neg c18] at h ⊢
    by_cases c19 : isSubstitutionType t = true
    · rw [if_pos c19] at h ⊢
      repeat' split at h
      all_goals simp at h
      all_goals (obtain ⟨hL, hR⟩ := h; subst hL; rfl)
    rw [if_neg c19] at h ⊢
    by_cases c20 : (t.sh.flags &&& TypeFlags.NonPrimitive != 0) = true
    · rw [if_pos c20] at h ⊢
      repeat' split at h
      all_goals simp at h
      all_goals (obtain ⟨hL, hR⟩ := h; subst hL; rfl)
    rw [if_neg c20] at h ⊢
    simp at h
  · intro hnone
    simp only [basicKindOf, basicPriorityList, firstMatch] at hnone
    rw [includeBasic_succ]
    unfold includeBasicF
    simp only [vis_includeType, vis_includeMember]
    have c0 : ¬ ((t.sh.flags &&& TypeFlags.Any != 0) = true) := by
      intro hcc
      rw [if_pos hcc] at hnone
      exact Option.noConfusion hnone
    rw [if_neg c0] at hnone ⊢
    have c1 : ¬ ((t.sh.flags &&& TypeFlags.Unknown != 0) = true) := by
      intro hcc
      rw [if_pos hcc] at hnone
      exact Option.noConfusion hnone
    rw [if_neg c1] at hnone ⊢
    have c2 : ¬ ((t.sh.flags &&& TypeFlags.StringLiteral != 0) = true) := by
      intro hcc
      rw [if_pos hcc] at hnone
      exact Option.noConfusion hnone
    rw [if_neg c2] at hnone ⊢
    have c3 : ¬ ((t.sh.flags &&& TypeFlags.NumberLiteral != 0) = true) := by
      intro hcc
      rw [if_pos hcc] at hnone
      exact Option.noConfusion hnone
    rw [if_neg c3] at hnone ⊢
    have c4 : ¬ ((t.sh.flags &&& TypeFlags.BooleanLiteral != 0) = true) := by
      intro hcc
      rw [if_pos hcc] at hnone
      exact Option.noConfusion hnone
    rw [if_neg c4] at hnone ⊢
    have c5 : ¬ (((t.sh.flags &&& TypeFlags.EnumLiteral != 0) && (t.sh.flags &&& TypeFlags.Union != 0)) = true) := by
      intro hcc
      rw [if_pos hcc] at hnone
      exact Option.noConfusion hnone
    rw [if_neg c5] at hnone ⊢
    have c6 : ¬ (((t.sh.flags &&& TypeFlags.Enum != 0) && (t.sh.flags &&& TypeFlags.Union != 0)) = true) := by
      intro hcc
      rw [if_pos hcc] at hnone
      exact Option.noConfusion hnone
    rw [if_neg c6] at hnone ⊢
    have c7 : ¬ (isBigIntLiteral t = true) := by
      intro hcc
      rw [if_pos hcc] at hnone
      exact Option.noConfusion hnone
    rw [if_neg c7] at hnone ⊢
    have c8 : ¬ ((t.sh.flags &&& TypeFlags.String != 0) = true) := by
      intro hcc
      rw [if_pos hcc] at hnone
      exact Option.noConfusion hnone
    rw [if_neg c8] at hnone ⊢
    have c9 : ¬ ((t.sh.flags &&& TypeFlags.Boolean != 0) = true) := by
      intro hcc
      rw [if_pos hcc] at hnone
      exact Option.noConfusion hnone
    rw [if_neg c9] at hnone ⊢
    have c10 : ¬ ((t.sh.flags &&& TypeFlags.Number != 0) = true) := by
      intro hcc
      rw [if_pos hcc] at hnone
      exact Option.noConfusion hnone
    rw [if_neg c10] at hnone ⊢
    have c11 : ¬ ((t.sh.flags &&& TypeFlags.BigInt != 0) = true) := by
      intro hcc
      rw [if_pos hcc] at hnone
      exact Option.noConfusion hnone
    rw [if_neg c11] at hnone ⊢
    have c12 : ¬ ((t.sh.flags &&& TypeFlags.ESSymbol != 0) = true) := by
      intro hcc
      rw [if_pos hcc] at hnone
      exact Option.noConfusion hnone
    rw [if_neg c12] at hnone ⊢
    have c13 : ¬ ((t.sh.flags &&& TypeFlags.UniqueESSymbol != 0) = true) := by
      intro hcc
      rw [if_pos hcc] at hnone
      exact Option.noConfusion hnone
    rw [if_neg c13] at hnone ⊢
    have c14 : ¬ ((t.sh.flags &&& TypeFlags.Void != 0) = true) := by
      intro hcc
      rw [if_pos hcc] at hnone
      exact Option.noConfusion hnone
    rw [if_neg c14] at hnone ⊢
    have c15 : ¬ ((t.sh.flags &&& TypeFlags.Undefined != 0) = true) := by
      intro hcc
      rw [if_pos hcc] at hnone
      exact Option.noConfusion hnone
    rw [if_neg c15] at hnone ⊢
    have c16 : ¬ ((t.sh.flags &&& TypeFlags.Null != 0) = true) := by
      intro hcc
      rw [if_pos hcc] at hnone
      exact Option.noConfusion hnone
    rw [if_neg c16] at hnone ⊢
    have c17 : ¬ ((t.sh.flags &&& TypeFlags.Never != 0) = true) := by
      intro hcc
      rw [if_pos hcc] at hnone
      exact Option.noConfusion hnone
    rw [if_neg c17] at hnone ⊢
    have c18 : ¬ (isConditionalType t = true) := by
      intro hcc
      rw [if_pos hcc] at hnone
      exact Option.noConfusion hnone
    rw [if_neg c18] at hnone ⊢
    have c19 : ¬ (isSubstitutionType t = true) := by
      intro hcc
      rw [if_pos hcc] at hnone
      exact Option.noConfusion hnone
    rw [if_neg c19] at hnone ⊢
    have c20 : ¬ ((t.sh.flags &&& TypeFlags.NonPrimitive != 0) = true) := by
      intro hcc
      rw [if_pos hcc] at hnone
      exact Option.noConfusion hnone
    rw [if_neg c20] at hnone ⊢

/-! ## Claim C5 witness -/

/-- A type with overlapping flags (`Any` and `String` both set). -/
def w5type : OType :=
  .mk { emptyOTypeSh with id := 11, flags := TypeFlags.Any ||| TypeFlags.String }

/-- C5 witness: with both `Any` and `String` set the earliest matching kind
(`any`) wins, and a type with no matching flags yields no match and no state
change. -/
theorem claim_C5_witness :
    includeBasic 1 ⟨[]⟩ w5type = some (some TypeModel.any, ⟨[]⟩) ∧
    some (TypeModel.any.kindName) = basicKindOf w5type ∧
    basicKindOf w4type = none ∧
    includeBasic 1 ⟨[]⟩ w4type = some (none, ⟨[]⟩) :=
  ⟨rfl, (claim_C5_basicPriority 0 ⟨[]⟩ w5type).1 TypeModel.any ⟨[]⟩ rfl,
   rfl, (claim_C5_basicPriority 0 ⟨[]⟩ w4type).2 rfl⟩

/-! ## Registry lemmas -/

theorem countKey_eq_zero (r : Refs) (n : String) (h : hasRef r n = false) :
    countKey r n = 0 := by
  induction r with
  | nil => rfl
  | cons p rest ih =>
    simp only [hasRef, List.any_cons, Bool.or_eq_false_iff] at h
    simp only [countKey, List.filter_cons, h.1]
    exact ih (by simp [hasRef, h.2])

theorem hasRef_of_countKey_pos (r : Refs) (n : String) (h : 0 < countKey r n) :
    hasRef r n = true := by
  by_contra hc
  rw [countKey_eq_zero r n (by simpa using hc)] at h
  exact Nat.lt_irrefl 0 h

theorem find_setRef_mapped (rest : Refs) (n : String) (v : Option TypeModel)
    (h : hasRef rest n = true) :
    List.find? (fun q => q.1 == n)
      (rest.map (fun p => if p.1 == n then (n, v) else p)) = some (n, v) := by
  induction rest with
  | nil => simp [hasRef] at h
  | cons p rest ih =>
    cases hp : p.1 == n with
    | true =>
      have hp2 : p.1 = n := by simpa using hp
      simp [List.find?_cons, hp2]
    | false =>
      have hneg : ¬ ((p.1 == n) = true) := by simp [hp]
      simp only [hasRef, List.any_cons, hp, Bool.false_or] at h
      simp only [List.map_cons]
      rw [if_neg hneg]
      simp only [List.find?_cons, hp]
      exact ih h

theorem lookupRef_setRef (r : Refs) (n : String) (v : Option TypeModel) :
    lookupRef (setRef r n v) n = some v := by
  unfold setRef
  by_cases h : hasRef r n
  · rw [if_pos h]
    unfold lookupRef
    rw [find_setRef_mapped r n v h]
    rfl
  · rw [if_neg h]
    induction r with
    | nil => simp [lookupRef, List.find?]
    | cons p rest ih =>
      simp only [hasRef, List.any_cons, Bool.or_eq_true, not_or] at h
      have hp : (p.1 == n) = false := by
        cases hq : p.1 == n
        · rfl
        · exact absurd hq h.1
      simp only [List.cons_append, lookupRef, List.find?_cons, hp]
      exact ih (by simp [hasRef, h.2])

theorem countKey_setRef_eq (r : Refs) (n : String) (v : Option TypeModel)
    (h : hasRef r n = true) : countKey (setRef r n v) n = countKey r n := by
  unfold setRef
  rw [if_pos h]
  unfold countKey
  rw [List.filter_map, List.length_map]
  congr 1
  apply List.filter_congr
  intro q _
  show ((if q.1 == n then (n, v) else q).1 == n) = (q.1 == n)
  cases hq : q.1 == n with
  | true => simp [hq]
  | false => simp [hq]

/-! ## Claim C1: placeholder registration and idempotent resolution -/

theorem normalizeLoop_nil (p : List (Option Nat)) (a : List Nat) (i : Nat) :
    normalizeLoop [] p a i = [] := by
  induction i with
  | zero => rfl
  | succ k ih =>
    unfold normalizeLoop
    split
    · rfl
    · split
      · rfl
      · split
        · rfl
        · simpa using ih

/-- Normalizing an empty supplied-argument list yields an empty list. -/
theorem normalize_nil (ctx : DeclVisitorContext) (t : OType) (decl : Option ODecl)
    (name : String) : normalizeTypeParameters ctx t decl [] name = [] := by
  unfold normalizeTypeParameters
  simp [normalizeLoop_nil]

/-- `includeRef` on a type without supplied type arguments resolves to a
bare `ref` node and leaves the registry untouched. -/
theorem includeRef_noArgs (n : Nat) (ctx : DeclVisitorContext) (t : OType) (name : String)
    (ext : Option OType) (h : t.sh.typeArguments = none) :
    includeRef (n + 2) ctx t name ext = some (.ref [] name ext, ctx) := by
  rw [includeRef_succ]
  unfold includeRefF
  simp only [vis_getTypeArguments]
  rw [getTypeArguments_succ]
  unfold getTypeArgumentsF
  simp [h, normalize_nil]

/-- C1: `makeRef` on a not-yet-registered name inserts the placeholder `ref`
node under the name before invoking the body builder `cb` (visible in the
registry state `cb` receives), overwrites the placeholder with `cb`'s
result, and returns a `ref` node carrying the name; any request for the
same name made while the entry is present (in particular during `cb`'s own
run) returns the same-named `ref` without re-entering construction and
without touching the registry; afterwards the registry holds exactly one
entry for the name, filled with the built node. -/
theorem claim_C1_registerThenFill (fuel : Nat) (ctx ctx2 : DeclVisitorContext)
    (t t2 : OType) (name : String)
    (cb : DeclVisitorContext → OType → Option (Option TypeModel × DeclVisitorContext))
    (node : Option TypeModel)
    (ht : t.sh.typeArguments = none) (ht2 : t2.sh.typeArguments = none)
    (hnew : hasRef ctx.refs name = false)
    (hcb : cb ⟨setRef ctx.refs name (some (.ref [] name none))⟩ (retargetType t) =
      some (node, ctx2))
    (hcount : countKey ctx2.refs name = 1) :
    (∀ ctxi : DeclVisitorContext, hasRef ctxi.refs name = true →
      makeRef (fun c ty nm => includeRef (fuel + 2) c ty nm none) ctxi t2 name cb =
        some (.ref [] name none, ctxi)) ∧
    makeRef (fun c ty nm => includeRef (fuel + 2) c ty nm none) ctx t name cb =
      some (.ref [] name none, ⟨setRef ctx2.refs name node⟩) ∧
    lookupRef (setRef ctx2.refs name node) name = some node ∧
    countKey (setRef ctx2.refs name node) name = 1 := by
  refine ⟨fun ctxi hi => ?_, ?_, lookupRef_setRef _ _ _, ?_⟩
  · unfold makeRef
    rw [if_pos hi]
    exact includeRef_noArgs fuel ctxi t2 name none ht2
  · unfold makeRef
    dsimp only
    rw [if_neg (by simp [hnew]), hcb]
    exact includeRef_noArgs fuel ⟨setRef ctx2.refs name node⟩ t name none ht
  · rw [countKey_setRef_eq _ _ _ (hasRef_of_countKey_pos _ _ (by omega))]
    exact hcount

/-- C1 witness: requesting the named type `A` twice: the placeholder is
registered before the body builder runs, the second request observes it and
returns the same-named `ref`, and afterwards the registry holds exactly one
entry for `A`, filled with the built node. -/
theorem claim_C1_witness :
    hasRef ([] : Refs) "A" = false ∧
    (∀ ctxi : DeclVisitorContext, hasRef ctxi.refs "A" = true →
      makeRef (fun c ty nm => includeRef 2 c ty nm none) ctxi wAtype "A" (includeNamed 2) =
        some (.ref [] "A" none, ctxi)) ∧
    makeRef (fun c ty nm => includeRef 2 c ty nm none) ⟨[]⟩ wAtype "A" (includeNamed 2) =
      some (.ref [] "A" none, ⟨[("A", some TypeModel.null)]⟩) ∧
    lookupRef [("A", some TypeModel.null)] "A" = some (some TypeModel.null) ∧
    countKey [("A", some TypeModel.null)] "A" = 1 := by
  have h := claim_C1_registerThenFill 0 ⟨[]⟩ ⟨[("A", some (TypeModel.ref [] "A" none))]⟩
    wAtype wAtype "A" (includeNamed 2) (some TypeModel.null) rfl rfl rfl rfl rfl
  exact ⟨rfl, h.1, h.2.1, h.2.2.1, h.2.2.2⟩

/-! ## Claim C2: trailing-default trimming in `normalizeTypeParameters` -/

/-- Drop the last `k` elements of a list. -/
def dropLastN (k : Nat) (l : List TypeModel) : List TypeModel := l.take (l.length - k)

/-- The claim's specification of the trimming walk: starting from the last
declared parameter, count how many trailing positions have a truthy declared
default id equal to the supplied argument id at the same position, stopping
at the first mismatch. -/
def trailingCount (paramIds : List (Option Nat)) (argIds : List Nat) : Nat → Nat
  | 0 => 0
  | i + 1 =>
    match (paramIds.get? i).join with
    | none => 0
    | some idv =>
      if idv = 0 then 0
      else if argIds.get? i ≠ some idv then 0
      else trailingCount paramIds argIds i + 1

/-- The number of trailing supplied arguments equal to their parameter's
declared default. -/
def trailingMatchCount (paramIds : List (Option Nat)) (argIds : List Nat) : Nat :=
  trailingCount paramIds argIds paramIds.length

theorem dropLastN_zero (ts : List TypeModel) : dropLastN 0 ts = ts := by
  simp [dropLastN]

theorem dropLastN_dropLast (k : Nat) (ts : List TypeModel) :
    dropLastN k ts.dropLast = dropLastN (k + 1) ts := by
  unfold dropLastN
  rw [List.length_dropLast, List.dropLast_eq_take, List.take_take]
  congr 1
  omega

theorem normalizeLoop_spec (p : List (Option Nat)) (a : List Nat) (i : Nat) :
    ∀ ts : List TypeModel, normalizeLoop ts p a i = dropLastN (trailingCount p a i) ts := by
  induction i with
  | zero => intro ts; simp [normalizeLoop, trailingCount, dropLastN_zero]
  | succ k ih =>
    intro ts
    unfold normalizeLoop trailingCount
    cases (p.get? k).join with
    | none => simp [dropLastN_zero]
    | some idv =>
      dsimp only
      by_cases h0 : idv = 0
      · rw [if_pos h0, if_pos h0, dropLastN_zero]
      · rw [if_neg h0, if_neg h0]
        by_cases h1 : a.get? k ≠ some idv
        · rw [if_pos h1, if_pos h1, dropLastN_zero]
        · rw [if_neg h1, if_neg h1, ih ts.dropLast, dropLastN_dropLast]

/-- The oracle `string` type (also the declared default of `U` below). -/
def oStringType : OType := .mk { emptyOTypeSh with id := 100, flags := TypeFlags.String }

/-- The oracle `number` type. -/
def oNumberType : OType := .mk { emptyOTypeSh with id := 200, flags := TypeFlags.Number }

/-- The oracle `boolean` type. -/
def oBooleanType : OType := .mk { emptyOTypeSh with id := 300, flags := TypeFlags.Boolean }

/-- Declared type parameter `T` (no default). -/
def tpT : OType :=
  .mk { emptyOTypeSh with
          id := 401,
          symbol := some (.mk { emptyOSymSh with
                                  name := "T",
                                  declarations := [emptyODecl] }) }

/-- Declared type parameter `U = string`. -/
def tpU : OType :=
  .mk { emptyOTypeSh with
          id := 402,
          symbol := some (.mk { emptyOSymSh with
                                  name := "U",
                                  declarations :=
                                    [{ emptyODecl with default := some oStringType }] }) }

/-- The declaration of the generic `G<T, U = string>`. -/
def gDecl : ODecl := { emptyODecl with typeParameters := some [tpT, tpU] }

/-- A registry already holding `G`'s node with its two type-parameter
descriptors. -/
def gRefs : Refs :=
  [("G", some (.alias none [TypeModel.unidentified, TypeModel.unidentified]
    TypeModel.unidentified))]

/-- The instantiation `G<number, string>` (second argument equals the
declared default by oracle identity id). -/
def gInstKeep : OType :=
  .mk { emptyOTypeSh with id := 500, typeArguments := some [oNumberType, oStringType] }

/-- The instantiation `G<number, boolean>` (second argument differs from the
declared default). -/
def gInstBoth : OType :=
  .mk { emptyOTypeSh with id := 501, typeArguments := some [oNumberType, oBooleanType] }

/-- C2 (amended): `normalizeTypeParameters` first truncates the supplied
list to the length of the `types` list of the node currently registered
under the reference name (`MAX_SAFE_INTEGER` when the entry or its list is
absent) and then drops exactly the trailing arguments whose oracle identity
id equals the corresponding parameter's declared default id, stopping at
the first mismatch.  When the registry holds the fully built target node
(second conjunct's hypothesis) the bound is the declared parameter count,
and `G<T, U = string>` instantiated as `<number, string>` keeps exactly
`[number]` while `<number, boolean>` keeps both arguments. -/
theorem claim_C2_normalizeTrimsDefaults :
    (∀ (ctx : DeclVisitorContext) (type : OType) (decl : Option ODecl)
       (types : List TypeModel) (refName : String),
       normalizeTypeParameters ctx type decl types refName =
         dropLastN
           (trailingMatchCount
             (((decl.bind (fun d => d.typeParameters)).getD []).map getDefaultTypeId)
             (match type.sh.aliasTypeArguments with
              | some l => l.map (fun t => t.sh.id)
              | none => ((type.sh.typeArguments).getD []).map (fun t => t.sh.id)))
           (types.take ((((lookupRef ctx.refs refName).join.bind TypeModel.typesF).map
             List.length).getD maxSafeInteger))) ∧
    (∀ (ctx : DeclVisitorContext) (type : OType) (decl : Option ODecl)
       (types : List TypeModel) (refName : String) (tl : List TypeModel),
       (lookupRef ctx.refs refName).join.bind TypeModel.typesF = some tl →
       tl.length = ((decl.bind (fun d => d.typeParameters)).getD []).length →
       normalizeTypeParameters ctx type decl types refName =
         dropLastN
           (trailingMatchCount
             (((decl.bind (fun d => d.typeParameters)).getD []).map getDefaultTypeId)
             (match type.sh.aliasTypeArguments with
              | some l => l.map (fun t => t.sh.id)
              | none => ((type.sh.typeArguments).getD []).map (fun t => t.sh.id)))
           (types.take (((decl.bind (fun d => d.typeParameters)).getD []).length))) ∧
    normalizeTypeParameters ⟨gRefs⟩ gInstKeep (some gDecl)
      [TypeModel.number, TypeModel.string] "G" = [TypeModel.number] ∧
    normalizeTypeParameters ⟨gRefs⟩ gInstBoth (some gDecl)
      [TypeModel.number, TypeModel.boolean] "G" =
      [TypeModel.number, TypeModel.boolean] := by
  have hgen : ∀ (ctx : DeclVisitorContext) (type : OType) (decl : Option ODecl)
      (types : List TypeModel) (refName : String),
      normalizeTypeParameters ctx type decl types refName =
        dropLastN
          (trailingMatchCount
            (((decl.bind (fun d => d.typeParameters)).getD []).map getDefaultTypeId)
            (match type.sh.aliasTypeArguments with
             | some l => l.map (fun t => t.sh.id)
             | none => ((type.sh.typeArguments).getD []).map (fun t => t.sh.id)))
          (types.take ((((lookupRef ctx.refs refName).join.bind TypeModel.typesF).map
            List.length).getD maxSafeInteger)) := by
    intro ctx type decl types refName
    unfold normalizeTypeParameters trailingMatchCount
    rw [normalizeLoop_spec]
  refine ⟨hgen, fun ctx type decl types refName tl h1 h2 => ?_, rfl, rfl⟩
  rw [hgen ctx type decl types refName, h1]
  simp only [Option.map_some', Option.getD_some]
  rw [h2]

/-- C2 witness: the declared-count truncation branch applied at the
concrete `G<T, U = string>` scenario. -/
theorem claim_C2_witness :
    (lookupRef gRefs "G").join.bind TypeModel.typesF =
      some [TypeModel.unidentified, TypeModel.unidentified] ∧
    normalizeTypeParameters ⟨gRefs⟩ gInstKeep (some gDecl)
      [TypeModel.number, TypeModel.string] "G" =
      dropLastN
        (trailingMatchCount
          ((((some gDecl).bind (fun d => d.typeParameters)).getD []).map getDefaultTypeId)
          (match gInstKeep.sh.aliasTypeArguments with
           | some l => l.map (fun t => t.sh.id)
           | none => ((gInstKeep.sh.typeArguments).getD []).map (fun t => t.sh.id)))
        ([TypeModel.number, TypeModel.string].take
          ((((some gDecl).bind (fun d => d.typeParameters)).getD []).length)) :=
  ⟨rfl, claim_C2_normalizeTrimsDefaults.2.1 ⟨gRefs⟩ gInstKeep (some gDecl)
    [TypeModel.number, TypeModel.string] "G"
    [TypeModel.unidentified, TypeModel.unidentified] rfl rfl⟩

/-- The registry as `makeRef` leaves it for `G` right before recursing into
the generic's own body: only the placeholder `ref` node, whose `types` list
is empty. -/
def gRefsPlaceholder : Refs := setRef [] "G" (some (TypeModel.ref [] "G" none))

/-- C2 counterexample: while `G`'s own body is being built the registry
holds the placeholder `ref` node (empty `types`), so the truncation bound
`context.refs[refName]?.types?.length` is `0` — not the declared parameter
count `2` — and the instantiation `G<number, boolean>`, which the claim
says keeps both arguments, is normalized to the empty list: every
self-referential instantiation inside a generic's own construction loses
all of its type arguments. -/
theorem claim_C2_counterexample :
    gRefsPlaceholder = [("G", some (TypeModel.ref [] "G" none))] ∧
    (lookupRef gRefsPlaceholder "G").join.bind TypeModel.typesF = some [] ∧
    (((some gDecl).bind (fun d => d.typeParameters)).getD []).length = 2 ∧
    gInstBoth.sh.typeArguments = some [oNumberType, oBooleanType] ∧
    normalizeTypeParameters ⟨gRefsPlaceholder⟩ gInstBoth (some gDecl)
      [TypeModel.number, TypeModel.boolean] "G" = [] :=
  ⟨rfl, rfl, rfl, rfl, rfl⟩

/-! ## Claim C7: union and tuple ordering -/

theorem mapWithCtx_length (f : DeclVisitorContext → α → Option (β × DeclVisitorContext)) :
    ∀ (ctx : DeclVisitorContext) (xs : List α) (l : List β) (c2 : DeclVisitorContext),
      mapWithCtx f ctx xs = some (l, c2) → l.length = xs.length := by
  intro ctx xs
  induction xs generalizing ctx with
  | nil => intro l c2 h; simp [mapWithCtx] at h; simp [h.1.symm]
  | cons x rest ih =>
    intro l c2 h
    unfold mapWithCtx at h
    cases hf : f ctx x with
    | none => rw [hf] at h; exact absurd h (by simp)
    | some p =>
      obtain ⟨b, cb⟩ := p
      rw [hf] at h
      cases hrest : mapWithCtx f cb rest with
      | none => simp [hrest] at h
      | some q =>
        obtain ⟨bs, cq⟩ := q
        simp only [hrest] at h
        obtain ⟨h1, h2⟩ := (by simpa using h : b :: bs = l ∧ cq = c2)
        rw [← h1]
        simp [ih cb bs cq hrest]

theorem mapWithCtx_pointwise (f : DeclVisitorContext → α → Option (β × DeclVisitorContext)) :
    ∀ (ctx : DeclVisitorContext) (xs : List α) (l : List β) (c2 : DeclVisitorContext),
      mapWithCtx f ctx xs = some (l, c2) →
      ∀ i (hi : i < xs.length) (hl : i < l.length),
        ∃ c c', f c (xs.get ⟨i, hi⟩) = some (l.get ⟨i, hl⟩, c') := by
  intro ctx xs
  induction xs generalizing ctx with
  | nil => intro l c2 h i hi; exact absurd hi (by simp)
  | cons x rest ih =>
    intro l c2 h i hi hl
    unfold mapWithCtx at h
    cases hf : f ctx x with
    | none => rw [hf] at h; exact absurd h (by simp)
    | some p =>
      obtain ⟨b, cb⟩ := p
      rw [hf] at h
      cases hrest : mapWithCtx f cb rest with
      | none => simp [hrest] at h
      | some q =>
        obtain ⟨bs, cq⟩ := q
        simp only [hrest] at h
        obtain ⟨h1, h2⟩ := (by simpa using h : b :: bs = l ∧ cq = c2)
        subst h1
        match i with
        | 0 => exact ⟨ctx, cb, hf⟩
        | j + 1 =>
          exact ih cb bs cq hrest j (by simpa using hi) (by simpa using hl)

/-- C7: a tuple type's node lists one entry per oracle element, and a union
type's node one entry per oracle member, in the same order, each entry being
the classification of the corresponding oracle type under the threaded
context. -/
theorem claim_C7_unionTupleOrder (fuel : Nat) (ctx : DeclVisitorContext) (t : OType) :
    (∀ m c, isTupleType t = true →
      includeCombinator (fuel + 1) ctx t = some (some m, c) →
      ∃ args l, t.sh.typeArguments = some args ∧ m = TypeModel.tuple l ∧
        mapWithCtx (includeType fuel) ctx args = some (l, c) ∧
        l.length = args.length ∧
        (∀ i (hi : i < args.length) (hl : i < l.length),
          ∃ c1 c2, includeType fuel c1 (args.get ⟨i, hi⟩) = some (l.get ⟨i, hl⟩, c2))) ∧
    (∀ m c, isTupleType t = false → isReferenceType t = false →
      ((t.sh.flags &&& TypeFlags.Union) != 0) = true →
      includeCombinator (fuel + 2) ctx t = some (some m, c) →
      ∃ l, m = TypeModel.union l ∧
        mapWithCtx (includeType fuel) ctx t.sh.types = some (l, c) ∧
        l.length = t.sh.types.length ∧
        (∀ i (hi : i < t.sh.types.length) (hl : i < l.length),
          ∃ c1 c2, includeType fuel c1 (t.sh.types.get ⟨i, hi⟩) =
            some (l.get ⟨i, hl⟩, c2))) := by
  constructor
  · intro m c htup h
    rw [includeCombinator_succ] at h
    unfold includeCombinatorF at h
    rw [if_pos htup] at h
    cases hargs : t.sh.typeArguments with
    | none => rw [hargs] at h; exact absurd h (by simp)
    | some args =>
      rw [hargs] at h
      simp only [vis_includeType] at h
      cases hmap : mapWithCtx (includeType fuel) ctx args with
      | none => simp only [hmap] at h; exact absurd h (by simp)
      | some p =>
        obtain ⟨l, c2⟩ := p
        simp only [hmap] at h
        obtain ⟨h1, h2⟩ := (by simpa using h : TypeModel.tuple l = m ∧ c2 = c)
        subst h2
        exact ⟨args, l, rfl, h1.symm, hmap, mapWithCtx_length _ _ _ _ _ hmap,
          mapWithCtx_pointwise _ _ _ _ _ hmap⟩
  · intro m c htup href huni h
    rw [includeCombinator_succ] at h
    unfold includeCombinatorF at h
    rw [if_neg (by simp [htup]), if_neg (by simp [href]), if_pos huni] at h
    simp only [vis_getUnion] at h
    rw [getUnion_succ] at h
    unfold getUnionF at h
    simp only [vis_includeType] at h
    cases hmap : mapWithCtx (includeType fuel) ctx t.sh.types with
    | none => simp only [hmap] at h; exact absurd h (by simp)
    | some p =>
      obtain ⟨l, c2⟩ := p
      simp only [hmap] at h
      obtain ⟨h1, h2⟩ := (by simpa using h : TypeModel.union l = m ∧ c2 = c)
      subst h2
      exact ⟨l, h1.symm, rfl, mapWithCtx_length _ _ _ _ _ hmap,
        mapWithCtx_pointwise _ _ _ _ _ hmap⟩

/-- A tuple type with three elements (`[string, number, boolean]`). -/
def w7tuple : OType :=
  .mk { emptyOTypeSh with
          id := 600,
          isTuple := true,
          typeArguments := some [oStringType, oNumberType, oBooleanType] }

/-- A union type with three members (`string | number | boolean`). -/
def w7union : OType :=
  .mk { emptyOTypeSh with
          id := 601,
          flags := TypeFlags.Union,
          types := [oStringType, oNumberType, oBooleanType] }

/-- C7 witness: a three-element tuple and a three-member union preserve
declaration order and length. -/
theorem claim_C7_witness :
    includeCombinator 5 ⟨[]⟩ w7tuple =
      some (some (TypeModel.tuple [TypeModel.string, TypeModel.number, TypeModel.boolean]),
        ⟨[]⟩) ∧
    includeCombinator 6 ⟨[]⟩ w7union =
      some (some (TypeModel.union [TypeModel.string, TypeModel.number, TypeModel.boolean]),
        ⟨[]⟩) ∧
    (∃ args l, w7tuple.sh.typeArguments = some args ∧
      TypeModel.tuple [TypeModel.string, TypeModel.number, TypeModel.boolean] =
        TypeModel.tuple l ∧
      mapWithCtx (includeType 4) ⟨[]⟩ args = some (l, ⟨[]⟩) ∧
      l.length = args.length ∧
      (∀ i (hi : i < args.length) (hl : i < l.length),
        ∃ c1 c2, includeType 4 c1 (args.get ⟨i, hi⟩) = some (l.get ⟨i, hl⟩, c2))) ∧
    (∃ l, TypeModel.union [TypeModel.string, TypeModel.number, TypeModel.boolean] =
        TypeModel.union l ∧
      mapWithCtx (includeType 4) ⟨[]⟩ w7union.sh.types = some (l, ⟨[]⟩) ∧
      l.length = w7union.sh.types.length ∧
      (∀ i (hi : i < w7union.sh.types.length) (hl : i < l.length),
        ∃ c1 c2, includeType 4 c1 (w7union.sh.types.get ⟨i, hi⟩) =
          some (l.get ⟨i, hl⟩, c2))) :=
  ⟨rfl, rfl,
   (claim_C7_unionTupleOrder 4 ⟨[]⟩ w7tuple).1 _ ⟨[]⟩ rfl rfl,
   (claim_C7_unionTupleOrder 4 ⟨[]⟩ w7union).2 _ ⟨[]⟩ rfl rfl rfl rfl⟩

/-! ## Claim C8: mapped type shape -/

/-- C8: a successful `includeMappedObject` yields an `interface` node with
empty own-property list, empty extends, empty type-parameter list, and a
`mapped` descriptor named after the index variable, whose `optional` flag is
the mapped declaration's question token, whose constraint is the
`includeConstraint` result for the index type parameter, and whose value is
the classified value-type expression. -/
theorem claim_C8_mappedShape (fuel : Nat) (ctx : DeclVisitorContext) (t : OType)
    (m : TypeModel) (c : DeclVisitorContext)
    (h : includeMappedObject (fuel + 1) ctx t = some (m, c)) :
    ∃ tp mp declType isym constraint c1 vm,
      t.sh.typeParameter = some tp ∧
      (tp.sh.symbol.bind (fun s => s.sh.declarations.head?)).bind
        (fun d => d.mappedParent) = some mp ∧
      (t.sh.symbol.bind (fun s => s.sh.declarations.head?)).bind
        (fun d => d.typeNode) = some declType ∧
      mp.typeParameter.sh.symbol = some isym ∧
      includeConstraint fuel ctx mp.typeParameter = some (constraint, c1) ∧
      includeType fuel c1 (nodeResolved declType) = some (vm, c) ∧
      m = TypeModel.interface [] (getComment t.sh.symbol) [] []
        (some (TypeModelMapped.mk isym.sh.name constraint mp.questionToken vm)) := by
  rw [includeMappedObject_succ] at h
  unfold includeMappedObjectF at h
  simp only [vis_includeConstraint, vis_includeType] at h
  cases h1 : t.sh.typeParameter with
  | none => simp only [h1] at h; exact absurd h (by simp)
  | some tp =>
    simp only [h1] at h
    cases h2 : (tp.sh.symbol.bind (fun s => s.sh.declarations.head?)).bind
        (fun d => d.mappedParent) with
    | none => simp only [h2] at h; exact absurd h (by simp)
    | some mp =>
      simp only [h2] at h
      cases h3 : (t.sh.symbol.bind (fun s => s.sh.declarations.head?)).bind
          (fun d => d.typeNode) with
      | none => simp only [h3] at h; exact absurd h (by simp)
      | some declType =>
        simp only [h3] at h
        cases h4 : mp.typeParameter.sh.symbol with
        | none => simp only [h4] at h; exact absurd h (by simp)
        | some isym =>
          simp only [h4] at h
          cases h5 : includeConstraint fuel ctx mp.typeParameter with
          | none => simp only [h5] at h; exact absurd h (by simp)
          | some p =>
            obtain ⟨constraint, c1⟩ := p
            simp only [h5] at h
            cases h6 : includeType fuel c1 (nodeResolved declType) with
            | none => simp only [h6] at h; exact absurd h (by simp)
            | some q =>
              obtain ⟨vm, c2⟩ := q
              simp only [h6] at h
              obtain ⟨hm, hc⟩ := (by simpa using h :
                TypeModel.interface [] (getComment t.sh.symbol) [] []
                  (some (TypeModelMapped.mk isym.sh.name constraint mp.questionToken vm)) =
                    m ∧ c2 = c)
              subst hc
              exact ⟨tp, mp, declType, isym, constraint, c1, vm, rfl, h2, rfl, h4, h5, h6,
                hm.symm⟩

/-- The named local type `Keys` that the mapped type's constraint resolves
to. -/
def keysOType : OType :=
  .mk { emptyOTypeSh with id := 700, symbol := some (symNamed "Keys") }

/-- The index type parameter `K` of `{ [K in Keys]?: V }`, whose declared
constraint node resolves to `Keys`. -/
def w8index : OType :=
  .mk { emptyOTypeSh with
          id := 701,
          symbol := some (.mk { emptyOSymSh with
                                  name := "K",
                                  declarations :=
                                    [{ emptyODecl with
                                        constraint := some (.otherN keysOType) }] }) }

/-- The mapped type's own type parameter, whose declaration points back at
the mapped parent node (question token present). -/
def w8tp : OType :=
  .mk { emptyOTypeSh with
          id := 702,
          symbol := some (.mk { emptyOSymSh with
                                  name := "K",
                                  declarations :=
                                    [{ emptyODecl with
                                        mappedParent := some ⟨w8index, true⟩ }] }) }

/-- The mapped type `{ [K in Keys]?: string }`. -/
def w8type : OType :=
  .mk { emptyOTypeSh with
          id := 703,
          flags := TypeFlags.ObjectF,
          objectFlags := ObjectFlags.Mapped,
          typeParameter := some w8tp,
          symbol := some (.mk { emptyOSymSh with
                                  name := "M",
                                  declarations :=
                                    [{ emptyODecl with
                                        typeNode := some (.otherN oStringType) }] }) }

/-- A registry already holding `Keys`. -/
def w8refs : Refs := [("Keys", some TypeModel.unidentified)]

/-- C8 witness: `{ [K in Keys]?: string }` extracts to an interface node
with empty own-property list whose `mapped` descriptor has `optional = true`
and a constraint resolving to a `ref` to `Keys`. -/
theorem claim_C8_witness :
    includeMappedObject 6 ⟨w8refs⟩ w8type =
      some (TypeModel.interface [] (some "") [] []
        (some (TypeModelMapped.mk "K" (some (TypeModel.ref [] "Keys" none)) true
          TypeModel.string)), ⟨w8refs⟩) ∧
    ∃ tp mp declType isym constraint c1 vm,
      w8type.sh.typeParameter = some tp ∧
      (tp.sh.symbol.bind (fun s => s.sh.declarations.head?)).bind
        (fun d => d.mappedParent) = some mp ∧
      (w8type.sh.symbol.bind (fun s => s.sh.declarations.head?)).bind
        (fun d => d.typeNode) = some declType ∧
      mp.typeParameter.sh.symbol = some isym ∧
      includeConstraint 5 ⟨w8refs⟩ mp.typeParameter = some (constraint, c1) ∧
      includeType 5 c1 (nodeResolved declType) = some (vm, ⟨w8refs⟩) ∧
      TypeModel.interface [] (some "") [] []
        (some (TypeModelMapped.mk "K" (some (TypeModel.ref [] "Keys" none)) true
          TypeModel.string)) =
        TypeModel.interface [] (getComment w8type.sh.symbol) [] []
          (some (TypeModelMapped.mk isym.sh.name constraint mp.questionToken vm)) :=
  ⟨rfl, claim_C8_mappedShape 5 ⟨w8refs⟩ w8type _ ⟨w8refs⟩ rfl⟩

/-! ## Claim C3: inherited-member exclusion -/

/-- The base interface's own property `a` (oracle id 1) as registered. -/
def basePropNode : TypeModel := .prop "a" "" (some 1) false (some "") TypeModel.string

/-- The registered node of the base interface. -/
def baseNode : TypeModel := .interface [] (some "") [basePropNode] [] none

/-- A registry holding the base interface under `Base`. -/
def c3refs : Refs := [("Base", some baseNode)]

/-- The oracle type of the base interface. -/
def baseOType : OType :=
  .mk { emptyOTypeSh with
          id := 800,
          flags := TypeFlags.ObjectF,
          objectFlags := 2,
          symbol := some (symNamed "Base") }

/-- The inherited property symbol `a` (id 1) as visible on the derived
type. -/
def symA : OSym :=
  .mk { emptyOSymSh with
          name := "a",
          id := some 1,
          declarations := [{ emptyODecl with symbolLocType := some oStringType }] }

/-- The derived type's own property symbol `b` (id 2). -/
def symB : OSym :=
  .mk { emptyOSymSh with
          name := "b",
          id := some 2,
          declarations := [{ emptyODecl with symbolLocType := some oStringType }] }

/-- The derived interface's declaration: `interface Derived extends Base`. -/
def derivedDecl : ODecl :=
  { emptyODecl with
      isInterfaceOrClass := true,
      heritageClauses := [⟨SyntaxKind.ExtendsKeyword, [⟨baseOType, true, "Base"⟩]⟩] }

/-- The oracle type of the derived interface, with members `a` (inherited,
id 1) and `b` (own, id 2). -/
def derivedOType : OType :=
  .mk { emptyOTypeSh with
          id := 801,
          flags := TypeFlags.ObjectF,
          objectFlags := 2,
          symbol := some (.mk { emptyOSymSh with
                                  name := "Derived",
                                  declarations := [derivedDecl] }),
          properties := [symA, symB] }

/-- C3: evaluation of the code at the failing input.  The registered base
node (kind `interface`) holds property `a` with id 1, yet `getAllPropIds`
collects no ids from it (its kind is in neither entry of
`allowedBaseTypes = ["object", "class"]` and the internal heritage `ref`
carries no external oracle type), so the derived node re-emits the
inherited property `a` alongside its own `b`, contradicting the claimed
inherited-member exclusion; the `extends` list does contain the `ref` to
the base. -/
theorem claim_C3_inheritanceDedupBug :
    lookupRef c3refs "Base" = some (some baseNode) ∧
    baseNode.propsF = [TypeModel.prop "a" "" (some 1) false (some "") TypeModel.string] ∧
    getAllPropIds 8 c3refs [TypeModel.ref [] "Base" none] = some [] ∧
    includeStandardObject 8 ⟨c3refs⟩ derivedOType =
      some (TypeModel.interface [TypeModel.ref [] "Base" none] (some "")
        [TypeModel.prop "a" "" (some 1) false (some "") TypeModel.string,
         TypeModel.prop "b" "" (some 2) false (some "") TypeModel.string] [] none,
        ⟨c3refs⟩) :=
  ⟨rfl, rfl, rfl, rfl⟩

/-! ## Claim C6: index signatures and call signatures -/

/-- The oracle type of a base interface with a numeric index signature whose
value type is `string` (oracle index object `oStringType`, id 100). -/
def baseIdxOType : OType :=
  .mk { emptyOTypeSh with
          id := 900,
          flags := TypeFlags.ObjectF,
          objectFlags := 2,
          symbol := some (symNamed "IBase"),
          numberIndexType := some oStringType }

/-- A registry holding the base's node (with its own index member). -/
def c6refs : Refs :=
  [("IBase", some (TypeModel.interface [] (some "")
    [TypeModel.index [⟨"i", "", false, false, TypeModel.number⟩] false TypeModel.string]
    [] none))]

/-- The derived interface's declaration: `interface IDerived extends IBase`. -/
def derived6Decl : ODecl :=
  { emptyODecl with
      isInterfaceOrClass := true,
      heritageClauses := [⟨SyntaxKind.ExtendsKeyword, [⟨baseIdxOType, true, "IBase"⟩]⟩] }

/-- The derived interface: inherits the identical numeric index object
(`oStringType`, same oracle id) from the base. -/
def derived6OType : OType :=
  .mk { emptyOTypeSh with
          id := 901,
          flags := TypeFlags.ObjectF,
          objectFlags := 2,
          symbol := some (.mk { emptyOSymSh with
                                  name := "IDerived",
                                  declarations := [derived6Decl] }),
          numberIndexType := some oStringType,
          declaredNumberIndexInfo := some ⟨"i"⟩ }

/-- C6 counterexample: the derived interface's inherited base defines the
identical numeric index signature object (same oracle type, id 100), yet
the derived node still emits an `index` member, because the internal
heritage `ref` carries no external oracle type and the dedup check consults
only `m.external`.  The claim's "if and only if no inherited base defines
the identical index signature object" is therefore false at this input. -/
theorem claim_C6_counterexample :
    baseIdxOType.sh.numberIndexType = some oStringType ∧
    derived6OType.sh.numberIndexType = some oStringType ∧
    includeStandardObject 8 ⟨c6refs⟩ derived6OType =
      some (TypeModel.interface [TypeModel.ref [] "IBase" none] (some "")
        [TypeModel.index [⟨"i", "", false, false, TypeModel.number⟩] false TypeModel.string]
        [] none, ⟨c6refs⟩) :=
  ⟨rfl, rfl, rfl⟩

theorem getPropType_kind (fuel : Nat) (ctx : DeclVisitorContext) (s : OSym)
    (p : TypeModel) (c : DeclVisitorContext) (h : getPropType fuel ctx s = some (p, c)) :
    p.kindName = "prop" := by
  match fuel with
  | 0 => simp [getPropType, visitors, visitBot] at h
  | n + 1 =>
    rw [getPropType_succ] at h
    unfold getPropTypeF at h
    cases hv : (visitors n).getPropValue ctx s with
    | none => simp only [hv] at h; exact absurd h (by simp)
    | some q =>
      obtain ⟨vt, c2⟩ := q
      simp only [hv] at h
      obtain ⟨h1, h2⟩ := (by simpa using h : TypeModel.prop s.sh.name (getModifiers s)
        (truthyOr s.sh.id s.sh.targetId) ((s.sh.flags &&& SymbolFlags.Optional) != 0)
        (getComment (some s)) vt = p ∧ c2 = c)
      subst h1
      rfl

theorem getFunctionType_kind (fuel : Nat) (ctx : DeclVisitorContext) (sign : OSignature)
    (p : TypeModel) (c : DeclVisitorContext)
    (h : getFunctionType fuel ctx sign = some (p, c)) : p.kindName = "function" := by
  match fuel with
  | 0 => simp [getFunctionType, visitors, visitBot] at h
  | n + 1 =>
    rw [getFunctionType_succ] at h
    unfold getFunctionTypeF at h
    repeat' split at h
    all_goals simp at h
    obtain ⟨h1, h2⟩ := h
    subst h1
    rfl

theorem getIndexType_shape (fuel : Nat) (ctx : DeclVisitorContext) (it : OType)
    (keyType : TypeModel) (info : Option OIndexInfo) (idxm : TypeModel)
    (c : DeclVisitorContext) (h : getIndexType fuel ctx it keyType info = some (idxm, c)) :
    ∃ vm, idxm =
      TypeModel.index [⟨getKeyName info, "", false, false, keyType⟩] false vm := by
  match fuel with
  | 0 => simp [getIndexType, visitors, visitBot] at h
  | n + 1 =>
    rw [getIndexType_succ] at h
    unfold getIndexTypeF at h
    cases hv : (visitors n).includeType ctx it with
    | none => simp only [hv] at h; exact absurd h (by simp)
    | some q =>
      obtain ⟨vt, c2⟩ := q
      simp only [hv] at h
      obtain ⟨h1, h2⟩ := (by simpa using h :
        TypeModel.index [⟨getKeyName info, "", false, false, keyType⟩] false vt = idxm ∧
          c2 = c)
      exact ⟨vt, h1.symm⟩

theorem mapWithCtx_forall {α β : Type} {P : β → Prop}
    (f : DeclVisitorContext → α → Option (β × DeclVisitorContext))
    (hf : ∀ ctx x r c', f ctx x = some (r, c') → P r) :
    ∀ (ctx : DeclVisitorContext) (xs : List α) (l : List β) (c2 : DeclVisitorContext),
      mapWithCtx f ctx xs = some (l, c2) → ∀ p ∈ l, P p := by
  intro ctx xs
  induction xs generalizing ctx with
  | nil =>
    intro l c2 h p hp
    simp only [mapWithCtx, Option.some.injEq, Prod.mk.injEq] at h
    rw [← h.1] at hp
    simp at hp
  | cons x rest ih =>
    intro l c2 h p hp
    unfold mapWithCtx at h
    cases hfx : f ctx x with
    | none => rw [hfx] at h; exact absurd h (by simp)
    | some q =>
      obtain ⟨b, cb⟩ := q
      rw [hfx] at h
      cases hrest : mapWithCtx f cb rest with
      | none => simp [hrest] at h
      | some r =>
        obtain ⟨bs, cr⟩ := r
        simp only [hrest] at h
        obtain ⟨h1, h2⟩ := (by simpa using h : b :: bs = l ∧ cr = c2)
        rw [← h1] at hp
        rcases List.mem_cons.mp hp with hpb | hpbs
        · rw [hpb]; exact hf ctx x b cb hfx
        · exact ih cb bs cr hrest p hpbs

theorem indexStep_spec (fuel : Nat) (ctx2 : DeclVisitorContext) (idxType : Option OType)
    (inh : Bool) (keyType : TypeModel) (info : Option OIndexInfo)
    (part : List TypeModel) (ctx3 : DeclVisitorContext)
    (h : indexStep (getIndexType fuel) ctx2 idxType inh keyType info = some (part, ctx3)) :
    ((∃ nit, idxType = some nit) ∧ inh = false →
      ∃ vm, part =
        [TypeModel.index [⟨getKeyName info, "", false, false, keyType⟩] false vm]) ∧
    (idxType = none ∨ inh = true → part = []) := by
  unfold indexStep at h
  cases idxType with
  | none =>
    obtain ⟨h1, h2⟩ := (by simpa using h : [] = part ∧ ctx2 = ctx3)
    exact ⟨fun hq => absurd hq.1.choose_spec (by simp), fun _ => h1.symm⟩
  | some nit =>
    cases hinh : inh with
    | true =>
      rw [hinh] at h
      obtain ⟨h1, h2⟩ := (by simpa using h : [] = part ∧ ctx2 = ctx3)
      refine ⟨fun hq => ?_, fun _ => h1.symm⟩
      exact absurd hq.2 (by simp)
    | false =>
      rw [hinh] at h
      simp only [Bool.not_false, if_true] at h
      cases hg : getIndexType fuel ctx2 nit keyType info with
      | none => simp only [hg] at h; exact absurd h (by simp)
      | some q =>
        obtain ⟨im, cg⟩ := q
        simp only [hg] at h
        obtain ⟨h1, h2⟩ := (by simpa using h : [im] = part ∧ cg = ctx3)
        refine ⟨fun _ => ?_, fun hq => ?_⟩
        · obtain ⟨vm, hvm⟩ := getIndexType_shape fuel ctx2 nit keyType info im cg hg
          exact ⟨vm, by rw [← h1, hvm]⟩
        · rcases hq with hq | hq
          · exact absurd hq (by simp)
          · exact absurd hq (by simp)

/-- C6 (amended): in a standard object node, own `prop` members come first;
a numeric (resp. string) `index` member, with one synthesized parameter
named by the oracle's declared index-parameter name and typed `number`
(resp. `string`), follows exactly when the index type exists and is not
deduplicated by an inherited heritage `ref` that carries an external oracle
type with the identical index-type object; and one `function` member per
call signature is appended after the index members. -/
theorem claim_C6_indexCallLayout (fuel : Nat) (ctx : DeclVisitorContext) (t : OType)
    (m : TypeModel) (c : DeclVisitorContext)
    (h : includeStandardObject (fuel + 1) ctx t = some (m, c)) :
    ∃ exts impls ctx1 targets propPart numPart strPart callPart,
      includeInheritedTypes fuel ctx t = some ((exts, impls), ctx1) ∧
      getAllPropIds fuel ctx1.refs (exts ++ impls) = some targets ∧
      (∃ ctxp, mapWithCtx (getPropType fuel) ctx1
        (t.sh.properties.filter
          (fun p => !targets.contains (truthyOr p.sh.id p.sh.targetId))) =
        some (propPart, ctxp)) ∧
      (∀ p ∈ propPart, p.kindName = "prop") ∧
      m.propsF = propPart ++ numPart ++ strPart ++ callPart ∧
      ((∃ nit, t.sh.numberIndexType = some nit) ∧
          numberIndexInherited (exts ++ impls) t = false →
        ∃ vm, numPart = [TypeModel.index
          [⟨getKeyName t.sh.declaredNumberIndexInfo, "", false, false, TypeModel.number⟩]
          false vm]) ∧
      (t.sh.numberIndexType = none ∨ numberIndexInherited (exts ++ impls) t = true →
        numPart = []) ∧
      ((∃ sit, t.sh.stringIndexType = some sit) ∧
          stringIndexInherited (exts ++ impls) t = false →
        ∃ vm, strPart = [TypeModel.index
          [⟨getKeyName t.sh.declaredStringIndexInfo, "", false, false, TypeModel.string⟩]
          false vm]) ∧
      (t.sh.stringIndexType = none ∨ stringIndexInherited (exts ++ impls) t = true →
        strPart = []) ∧
      callPart.length = t.sh.callSignatures.length ∧
      (∀ p ∈ callPart, p.kindName = "function") := by
  rw [includeStandardObject_succ] at h
  unfold includeStandardObjectF at h
  simp only [vis_includeInheritedTypes, vis_getAllPropIds, vis_getPropType,
    vis_getIndexType, vis_getFunctionType, vis_getTypeParameters] at h
  rcases h1 : includeInheritedTypes fuel ctx t with _ | ⟨⟨exts, impls⟩, ctx1⟩
  · simp [h1] at h
  · simp only [h1] at h
    rcases h2 : getAllPropIds fuel ctx1.refs (exts ++ impls) with _ | targets
    · simp [h2] at h
    · simp only [h2] at h
      split at h
      next h3 => exact absurd h (by simp)
      next propPart ctxp h3 =>
      split at h
      next h4 => exact absurd h (by simp)
      next numPart ctx3 h4 =>
      split at h
      next h5 => exact absurd h (by simp)
      next strPart ctx4 h5 =>
      split at h
      next h6 => exact absurd h (by simp)
      next callPart ctx5 h6 =>
      split at h
      next h7 => exact absurd h (by simp)
      next tps ctx6 h7 =>
      obtain ⟨hm, hc⟩ := (by simpa using h :
        TypeModel.interface exts (getComment t.sh.symbol)
          (propPart ++ (numPart ++ (strPart ++ callPart))) tps none = m ∧ ctx6 = c)
      refine ⟨exts, impls, ctx1, targets, propPart, numPart, strPart, callPart,
        rfl, h2, ⟨ctxp, h3⟩,
        mapWithCtx_forall (getPropType fuel)
          (fun cx x r c' hr => getPropType_kind fuel cx x r c' hr) ctx1 _ propPart ctxp h3,
        ?_, (indexStep_spec _ _ _ _ _ _ _ _ h4).1,
        (indexStep_spec _ _ _ _ _ _ _ _ h4).2,
        (indexStep_spec _ _ _ _ _ _ _ _ h5).1,
        (indexStep_spec _ _ _ _ _ _ _ _ h5).2,
        mapWithCtx_length _ _ _ _ _ h6,
        mapWithCtx_forall (getFunctionType fuel)
          (fun cx x r c' hr => getFunctionType_kind fuel cx x r c' hr) ctx4 _ callPart
          ctx5 h6⟩
      rw [← hm]
      simp [TypeModel.propsF]

/-- C6 witness scenario: an object type with no symbol (hence no heritage and
nothing inherited), no own properties, a declared numeric index whose key
parameter is named "idx" and whose value type classifies as `number`, and one
zero-parameter call signature returning `number`. -/
def w6type : OType :=
  .mk { emptyOTypeSh with
    id := 60, flags := TypeFlags.ObjectF,
    numberIndexType := some oNumberType,
    declaredNumberIndexInfo := some ⟨"idx"⟩,
    callSignatures := [⟨none, [], oNumberType⟩] }

/-- C6 witness: on the concrete scenario `w6type` the standard object builder
succeeds and its member list decomposes as own props, then the emitted numeric
index member (named "idx", keyed `number`), then the string index part (empty:
no string index type), then one `function` member for the call signature. -/
theorem claim_C6_witness :
    ∃ m c, includeStandardObject 9 ⟨[]⟩ w6type = some (m, c) ∧
      ∃ exts impls ctx1 targets propPart numPart strPart callPart,
        includeInheritedTypes 8 ⟨[]⟩ w6type = some ((exts, impls), ctx1) ∧
        getAllPropIds 8 ctx1.refs (exts ++ impls) = some targets ∧
        (∃ ctxp, mapWithCtx (getPropType 8) ctx1
          (w6type.sh.properties.filter
            (fun p => !targets.contains (truthyOr p.sh.id p.sh.targetId))) =
          some (propPart, ctxp)) ∧
        (∀ p ∈ propPart, p.kindName = "prop") ∧
        m.propsF = propPart ++ numPart ++ strPart ++ callPart ∧
        ((∃ nit, w6type.sh.numberIndexType = some nit) ∧
            numberIndexInherited (exts ++ impls) w6type = false →
          ∃ vm, numPart = [TypeModel.index
            [⟨getKeyName w6type.sh.declaredNumberIndexInfo, "", false, false,
              TypeModel.number⟩] false vm]) ∧
        (w6type.sh.numberIndexType = none ∨
            numberIndexInherited (exts ++ impls) w6type = true → numPart = []) ∧
        ((∃ sit, w6type.sh.stringIndexType = some sit) ∧
            stringIndexInherited (exts ++ impls) w6type = false →
          ∃ vm, strPart = [TypeModel.index
            [⟨getKeyName w6type.sh.declaredStringIndexInfo, "", false, false,
              TypeModel.string⟩] false vm]) ∧
        (w6type.sh.stringIndexType = none ∨
            stringIndexInherited (exts ++ impls) w6type = true → strPart = []) ∧
        callPart.length = w6type.sh.callSignatures.length ∧
        (∀ p ∈ callPart, p.kindName = "function") := by
  refine ⟨_, _, rfl, claim_C6_indexCallLayout 8 ⟨[]⟩ w6type _ _ rfl⟩
